import Mathlib

/-!
Verification of the sand-simulator core (WebGPU falling-sand automaton with a
FLIP/PIC fluid solver).  The WGSL compute shaders in `src/flip-sim/shaders.js`
are shallowly embedded: textures become total functions over `ℤ × ℤ` with the
shader's out-of-bounds fallbacks made explicit, `u32` arithmetic is `ℕ` with
explicit `% 2^32`, and `f32` arithmetic is modelled exactly over `ℚ`.
-/

namespace SandSim

/-! ## Configuration constants (from `config.js` / the generated WGSL header) -/

def WIDTH : ℤ := 256

def HEIGHT : ℤ := 256

def EMPTY : ℕ := 0

def WALL : ℕ := 1

def SAND : ℕ := 2

def WATER : ℕ := 3

def LAVA : ℕ := 4

def STEAM : ℕ := 5

def ROCK : ℕ := 6

def INTERACT_THRESHOLD : ℚ := 5/100

def REST_DENSITY : ℚ := 1

def DRIFT_SCALE : ℚ := 8/10

def PARTICLES_PER_CELL : ℕ := 9

def PARTICLES_PER_CELL_SIDE : ℕ := 3

def MAX_PARTICLES : ℕ := 256 * 256 * 9

def U32MOD : ℕ := 4294967296

abbrev Pos := ℤ × ℤ

/-- `inBounds` from the common WGSL header. -/
def inBounds (p : Pos) : Prop :=
  0 ≤ p.1 ∧ p.1 < WIDTH ∧ 0 ≤ p.2 ∧ p.2 < HEIGHT

instance (p : Pos) : Decidable (inBounds p) := by
  unfold inBounds; infer_instance

/-- `isSolid` from the common WGSL header: `t == WALL || t == ROCK || t == SAND`. -/
def isSolidMat (t : ℕ) : Prop := t = WALL ∨ t = ROCK ∨ t = SAND

instance (t : ℕ) : Decidable (isSolidMat t) := by
  unfold isSolidMat; infer_instance

/-- WGSL `clamp(e, lo, hi) = min(max(e, lo), hi)`. -/
def clampQ (x lo hi : ℚ) : ℚ := min (max x lo) hi

/-! ## Grid snapshot and step parameters

The sand-step shader reads the prior-frame material texture, the packed
age/color metadata texture, the fluid density texture and the horizontal
staggered velocity texture, all through bounds-guarded accessors.  A `Board`
is that read-only snapshot; `Params` is the uniform `Params` struct of the
shaders. -/

structure Board where
  mat : Pos → ℕ
  sandMeta : Pos → ℕ
  density : Pos → ℚ
  velU : Pos → ℚ

structure Params where
  dt : ℚ
  gravity : ℚ
  viscosityScale : ℚ
  flipRatio : ℚ
  velocityDamping : ℚ
  sandFluidity : ℚ
  solidDamping : ℚ
  frame : ℕ

/-- `getMaterial`: out-of-bounds reads return `WALL`. -/
def getMaterial (B : Board) (p : Pos) : ℕ :=
  if inBounds p then B.mat p else WALL

/-- `getDensity`: out-of-bounds reads return `0`. -/
def getDensity (B : Board) (p : Pos) : ℚ :=
  if inBounds p then B.density p else 0

/-- `getSandMeta`: out-of-bounds reads return `0`. -/
def getSandMeta (B : Board) (p : Pos) : ℕ :=
  if inBounds p then B.sandMeta p else 0

/-- `sampleVelX`: average of the two horizontal faces of the cell. -/
def sampleVelX (B : Board) (p : Pos) : ℚ :=
  if inBounds p then (B.velU p + B.velU (p + ((1 : ℤ), (0 : ℤ)))) * (1/2) else 0

def getSandAge (metaValue : ℕ) : ℕ := metaValue &&& 65535

def getSandColorVar (metaValue : ℕ) : ℕ := (metaValue >>> 16) &&& 255

def packSandMeta (age colorVar : ℕ) : ℕ :=
  ((min age 65535) &&& 65535) ||| ((colorVar &&& 255) <<< 16)

/-! ## The deterministic position+frame hash -/

/-- `u32(x)` bit-reinterpretation of a (possibly negative) `i32`. -/
def toU32 (z : ℤ) : ℕ := (z % (U32MOD : ℤ)).toNat

/-- `hash(pos, frame)` from the sand-step shader, with `u32` wraparound explicit. -/
def hash (p : Pos) (frame : ℕ) : ℕ :=
  let h := (toU32 p.1 * 374761393 + toU32 p.2 * 668265263 + frame * 1013904223) % U32MOD
  let h2 := ((h ^^^ (h >>> 13)) * 1274126177) % U32MOD
  h2 ^^^ (h2 >>> 16)

/-- `rand01(pos, frame) = f32(hash & 1023) / 1023`. -/
def rand01 (p : Pos) (frame : ℕ) : ℚ := ((hash p frame &&& 1023 : ℕ) : ℚ) / 1023

/-- `preferLeft`: sign of the sampled horizontal fluid velocity when it is
significant, otherwise checkerboard parity of `x + y + frame`. -/
def preferLeft (B : Board) (P : Params) (p : Pos) : Bool :=
  let vx := sampleVelX B p
  if 1/10 < |vx| then decide (vx < 0)
  else decide ((p.1 + p.2 + (P.frame : ℤ)) % 2 = 0)

/-! ## Sand movement decision (`getSandMovement`) -/

/-- `canFallLeft` with its (unreachable, kept for fidelity) suppression
reassignment: requires both the diagonal and the sideways neighbor empty. -/
def canFallLeft (B : Board) (p : Pos) : Bool :=
  let c0 := decide (getMaterial B (p + ((-1 : ℤ), (1 : ℤ))) = EMPTY) &&
    decide (getMaterial B (p + ((-1 : ℤ), (0 : ℤ))) = EMPTY)
  if c0 && decide (getMaterial B (p + ((-1 : ℤ), (0 : ℤ))) = SAND) &&
      decide (getMaterial B (p + ((-1 : ℤ), (1 : ℤ))) = EMPTY) then false
  else c0

def canFallRight (B : Board) (p : Pos) : Bool :=
  let c0 := decide (getMaterial B (p + ((1 : ℤ), (1 : ℤ))) = EMPTY) &&
    decide (getMaterial B (p + ((1 : ℤ), (0 : ℤ))) = EMPTY)
  if c0 && decide (getMaterial B (p + ((1 : ℤ), (0 : ℤ))) = SAND) &&
      decide (getMaterial B (p + ((1 : ℤ), (1 : ℤ))) = EMPTY) then false
  else c0

/-- `canSlideLeft`: a sideways step that leads to an eventual fall, suppressed
when the grain two cells away would claim the same intermediate cell. -/
def canSlideLeft (B : Board) (p : Pos) : Bool :=
  let c0 := decide (getMaterial B (p + ((-1 : ℤ), (0 : ℤ))) = EMPTY) &&
    (decide (getMaterial B (p + ((-1 : ℤ), (1 : ℤ))) = EMPTY) ||
      (decide (getMaterial B (p + ((-2 : ℤ), (0 : ℤ))) = EMPTY) &&
        decide (getMaterial B (p + ((-2 : ℤ), (1 : ℤ))) = EMPTY)))
  if c0 && decide (getMaterial B (p + ((-2 : ℤ), (0 : ℤ))) = SAND) &&
      decide (getMaterial B (p + ((-1 : ℤ), (1 : ℤ))) = EMPTY) then false
  else c0

def canSlideRight (B : Board) (p : Pos) : Bool :=
  let c0 := decide (getMaterial B (p + ((1 : ℤ), (0 : ℤ))) = EMPTY) &&
    (decide (getMaterial B (p + ((1 : ℤ), (1 : ℤ))) = EMPTY) ||
      (decide (getMaterial B (p + ((2 : ℤ), (0 : ℤ))) = EMPTY) &&
        decide (getMaterial B (p + ((2 : ℤ), (1 : ℤ))) = EMPTY)))
  if c0 && decide (getMaterial B (p + ((2 : ℤ), (0 : ℤ))) = SAND) &&
      decide (getMaterial B (p + ((1 : ℤ), (1 : ℤ))) = EMPTY) then false
  else c0

/-- "Wet" test: local fluid density at or above the interact threshold. -/
def wetAt (B : Board) (p : Pos) : Bool :=
  decide (INTERACT_THRESHOLD ≤ getDensity B p)

/-- Final value of the mutable `baseChance` after the chain
`60 / if age>10 then 30 / if age>30 then 12 / if age>60 then 2`. -/
def settleBase (age : ℕ) : ℚ :=
  if 60 < age then 2 else if 30 < age then 12 else if 10 < age then 30 else 60

/-- `wetFactor = select(1.0, 0.5, wet)`. -/
def wetFactorQ (wet : Bool) : ℚ := if wet then 1/2 else 1

/-- `fluidityFactor = clamp(sandFluidity * 2 * wetFactor, 0, 2)`. -/
def fluidityFactor (f : ℚ) (wet : Bool) : ℚ :=
  clampQ (f * 2 * wetFactorQ wet) 0 2

/-- `maxSettleChance = u32(min(baseChance * fluidityFactor, 95))`. -/
def maxSettleChance (f : ℚ) (wet : Bool) (age : ℕ) : ℕ :=
  (⌊min (settleBase age * fluidityFactor f wet) 95⌋).toNat

/-- `getSandMovement(pos, age, rng)`: fall, diagonal fall, settle roll, slide. -/
def getSandMovement (B : Board) (P : Params) (p : Pos) (age : ℕ) (rng : ℕ) : Pos :=
  if wetAt B p ∧ clampQ (P.sandFluidity * (1/2)) (5/100) 1 < rand01 p P.frame then
    ((0 : ℤ), (0 : ℤ))
  else if getMaterial B (p + ((0 : ℤ), (1 : ℤ))) = EMPTY then ((0 : ℤ), (1 : ℤ))
  else if canFallLeft B p && canFallRight B p then
    (if preferLeft B P p then ((-1 : ℤ), (1 : ℤ)) else ((1 : ℤ), (1 : ℤ)))
  else if canFallLeft B p then ((-1 : ℤ), (1 : ℤ))
  else if canFallRight B p then ((1 : ℤ), (1 : ℤ))
  else if maxSettleChance P.sandFluidity (wetAt B p) age ≤ rng % 100 then
    ((0 : ℤ), (0 : ℤ))
  else if canSlideLeft B p && canSlideRight B p then
    (if preferLeft B P p then ((-1 : ℤ), (0 : ℤ)) else ((1 : ℤ), (0 : ℤ)))
  else if canSlideLeft B p then ((-1 : ℤ), (0 : ℤ))
  else if canSlideRight B p then ((1 : ℤ), (0 : ℤ))
  else ((0 : ℤ), (0 : ℤ))

/-- `getMovement(pos, rng)`: reads the age from the metadata texture. -/
def getMovement (B : Board) (P : Params) (p : Pos) (rng : ℕ) : Pos :=
  getSandMovement B P p (getSandAge (getSandMeta B p)) rng

/-! ## Gather-style conflict resolution -/

/-- `packIncoming(meta) = meta + 1` in `u32` arithmetic (0 encodes "no mover"). -/
def packIncoming (metaValue : ℕ) : ℕ := (metaValue + 1) % U32MOD

/-- `unpackIncoming(meta) = meta - 1` in `u32` arithmetic. -/
def unpackIncoming (metaValue : ℕ) : ℕ := (metaValue + (U32MOD - 1)) % U32MOD

/-- `checkIncoming(pos, fromOffset, frame)`: nonzero iff the neighbor at
`pos + fromOffset` is sand whose recomputed movement targets `pos`. -/
def checkIncoming (B : Board) (P : Params) (p off : Pos) : ℕ :=
  let fromPos := p + off
  if getMaterial B fromPos ≠ SAND then 0
  else if fromPos + getMovement B P fromPos (hash fromPos P.frame) = p then
    packIncoming (getSandMeta B fromPos)
  else 0

/-- The checkerboard parity `((destPos.x + destPos.y + i32(frame)) & 1) == 1`
that swaps the left/right scan preference. -/
def flipIncoming (d : Pos) (frame : ℕ) : Prop :=
  (d.1 + d.2 + (frame : ℤ)) % 2 = 1

instance (d : Pos) (frame : ℕ) : Decidable (flipIncoming d frame) := by
  unfold flipIncoming; infer_instance

/-- `hasHigherPriorityIncoming(destPos, myOffset, frame)`: the source-side yield
check, scanning the destination's candidate offsets in priority order and
returning `false` as soon as the scan reaches `myOffset`. -/
def hasHigherPriorityIncoming (B : Board) (P : Params) (d o : Pos) : Bool :=
  if o = ((0 : ℤ), (-1 : ℤ)) then false
  else if checkIncoming B P d ((0 : ℤ), (-1 : ℤ)) ≠ 0 then true
  else if flipIncoming d P.frame then
    if o = ((1 : ℤ), (0 : ℤ)) then false
    else if checkIncoming B P d ((1 : ℤ), (0 : ℤ)) ≠ 0 then true
    else if o = ((-1 : ℤ), (0 : ℤ)) then false
    else if checkIncoming B P d ((-1 : ℤ), (0 : ℤ)) ≠ 0 then true
    else if o = ((1 : ℤ), (-1 : ℤ)) then false
    else if checkIncoming B P d ((1 : ℤ), (-1 : ℤ)) ≠ 0 then true
    else if o = ((-1 : ℤ), (-1 : ℤ)) then false
    else if checkIncoming B P d ((-1 : ℤ), (-1 : ℤ)) ≠ 0 then true
    else false
  else
    if o = ((-1 : ℤ), (0 : ℤ)) then false
    else if checkIncoming B P d ((-1 : ℤ), (0 : ℤ)) ≠ 0 then true
    else if o = ((1 : ℤ), (0 : ℤ)) then false
    else if checkIncoming B P d ((1 : ℤ), (0 : ℤ)) ≠ 0 then true
    else if o = ((-1 : ℤ), (-1 : ℤ)) then false
    else if checkIncoming B P d ((-1 : ℤ), (-1 : ℤ)) ≠ 0 then true
    else if o = ((1 : ℤ), (-1 : ℤ)) then false
    else if checkIncoming B P d ((1 : ℤ), (-1 : ℤ)) ≠ 0 then true
    else false

/-- The destination-side acceptance scan of the `EMPTY` branch of the sand-step
shader: the first offset, in priority order, whose `checkIncoming` is nonzero. -/
def acceptedOffset (B : Board) (P : Params) (d : Pos) : Option Pos :=
  if checkIncoming B P d ((0 : ℤ), (-1 : ℤ)) ≠ 0 then some ((0 : ℤ), (-1 : ℤ))
  else if flipIncoming d P.frame then
    if checkIncoming B P d ((1 : ℤ), (0 : ℤ)) ≠ 0 then some ((1 : ℤ), (0 : ℤ))
    else if checkIncoming B P d ((-1 : ℤ), (0 : ℤ)) ≠ 0 then some ((-1 : ℤ), (0 : ℤ))
    else if checkIncoming B P d ((1 : ℤ), (-1 : ℤ)) ≠ 0 then some ((1 : ℤ), (-1 : ℤ))
    else if checkIncoming B P d ((-1 : ℤ), (-1 : ℤ)) ≠ 0 then some ((-1 : ℤ), (-1 : ℤ))
    else none
  else
    if checkIncoming B P d ((-1 : ℤ), (0 : ℤ)) ≠ 0 then some ((-1 : ℤ), (0 : ℤ))
    else if checkIncoming B P d ((1 : ℤ), (0 : ℤ)) ≠ 0 then some ((1 : ℤ), (0 : ℤ))
    else if checkIncoming B P d ((-1 : ℤ), (-1 : ℤ)) ≠ 0 then some ((-1 : ℤ), (-1 : ℤ))
    else if checkIncoming B P d ((1 : ℤ), (-1 : ℤ)) ≠ 0 then some ((1 : ℤ), (-1 : ℤ))
    else none

/-! ## The per-cell automaton step (`sandStepShader main`) -/

/-- The movement the `SAND` branch of `main` computes before the yield check. -/
def rawMove (B : Board) (P : Params) (p : Pos) : Pos :=
  getSandMovement B P p (getSandAge (getSandMeta B p)) (hash p P.frame)

/-- The movement after the source-side yield check (`main`, SAND branch). -/
def finalMove (B : Board) (P : Params) (p : Pos) : Pos :=
  let m := rawMove B P p
  if m ≠ ((0 : ℤ), (0 : ℤ)) ∧
      hasHigherPriorityIncoming B P (p + m) (-m.1, -m.2) = true then
    ((0 : ℤ), (0 : ℤ))
  else m

/-- The material written at an in-bounds cell by `sandStepShader main`. -/
def stepMat (B : Board) (P : Params) (p : Pos) : ℕ :=
  let mat := getMaterial B p
  if mat = WALL ∨ mat = ROCK then mat
  else if mat = SAND then
    (if finalMove B P p ≠ ((0 : ℤ), (0 : ℤ)) then EMPTY else SAND)
  else if mat = EMPTY then
    (match acceptedOffset B P p with
      | some _ => SAND
      | none => mat)
  else mat

/-- The metadata written at an in-bounds cell by `sandStepShader main`. -/
def stepMeta (B : Board) (P : Params) (p : Pos) : ℕ :=
  let mat := getMaterial B p
  if mat = WALL ∨ mat = ROCK then 0
  else if mat = SAND then
    (if finalMove B P p ≠ ((0 : ℤ), (0 : ℤ)) then 0
     else packSandMeta (getSandAge (getSandMeta B p) + 1)
        (getSandColorVar (getSandMeta B p)))
  else if mat = EMPTY then
    (match acceptedOffset B P p with
      | some o => packSandMeta 0 (getSandColorVar (unpackIncoming (checkIncoming B P p o)))
      | none => 0)
  else 0

/-- One full automaton dispatch: in-bounds cells get the per-cell step results,
out-of-bounds storage is untouched; the fluid fields are other passes' outputs
and are read-only here. -/
def stepBoard (B : Board) (P : Params) : Board where
  mat := fun p => if inBounds p then stepMat B P p else B.mat p
  sandMeta := fun p => if inBounds p then stepMeta B P p else B.sandMeta p
  density := B.density
  velU := B.velU

/-! ## Counting sand cells (mass conservation) -/

/-- The in-bounds dispatch domain of the grid shaders. -/
def cells : Finset Pos := (Finset.Ico (0 : ℤ) WIDTH) ×ˢ (Finset.Ico (0 : ℤ) HEIGHT)

/-- Number of granular (sand) cells in a snapshot. -/
def sandCount (B : Board) : ℕ :=
  (cells.filter (fun p => getMaterial B p = SAND)).card

/-! ## Settle bands (C3) -/

/-- The baseline settle band as the spec's sentence states it:
80 / 40 / 15 / 3 at age boundaries 10 / 30 / 60. -/
def specSettleBand (age : ℕ) : ℚ :=
  if 60 < age then 3 else if 30 < age then 15 else if 10 < age then 40 else 80

/-- The settle threshold as claimed by the spec, built from the 80/40/15/3
bands with the same fluidity scaling and cap as the code. -/
def specMaxSettleChance (f : ℚ) (wet : Bool) (age : ℕ) : ℕ :=
  (⌊min (specSettleBand age * fluidityFactor f wet) 95⌋).toNat

/-! ## Spawn pass (C4) -/

/-- The material written by `spawnParticlesShader main`: erase (255) clears
unconditionally, a Wall/Sand/Rock request overwrites unconditionally, and every
other request value (none, Water, ...) leaves the material unchanged. -/
def spawnResultMat (spawn currentMat : ℕ) : ℕ :=
  if spawn = 255 then EMPTY
  else if spawn = WALL ∨ spawn = SAND ∨ spawn = ROCK then spawn
  else currentMat

/-- The WATER branch spawns particles only into non-solid cells (and never
touches the material). -/
def waterSpawnAllowed (spawn currentMat : ℕ) : Prop :=
  spawn = WATER ∧ ¬isSolidMat currentMat

instance (spawn currentMat : ℕ) : Decidable (waterSpawnAllowed spawn currentMat) := by
  unfold waterSpawnAllowed; infer_instance

/-! ## Pressure relaxation (C5), from `pressureShader main` -/

def U_WIDTH : ℤ := WIDTH + 1

def V_HEIGHT : ℤ := HEIGHT + 1

def inBoundsU (p : Pos) : Prop :=
  0 ≤ p.1 ∧ p.1 < U_WIDTH ∧ 0 ≤ p.2 ∧ p.2 < HEIGHT

def inBoundsV (p : Pos) : Prop :=
  0 ≤ p.1 ∧ p.1 < WIDTH ∧ 0 ≤ p.2 ∧ p.2 < V_HEIGHT

instance (p : Pos) : Decidable (inBoundsU p) := by
  unfold inBoundsU; infer_instance

instance (p : Pos) : Decidable (inBoundsV p) := by
  unfold inBoundsV; infer_instance

/-- Read-only inputs of one pressure-relaxation dispatch. -/
structure PressureEnv where
  mat : Pos → ℕ
  density : Pos → ℚ
  velU : Pos → ℚ
  velV : Pos → ℚ
  solidVelX : Pos → ℚ
  solidVelY : Pos → ℚ
  count : Pos → ℕ
  airMixing : Bool

def PressureEnv.getMaterial (E : PressureEnv) (p : Pos) : ℕ :=
  if inBounds p then E.mat p else WALL

def PressureEnv.getDensity (E : PressureEnv) (p : Pos) : ℚ :=
  if inBounds p then E.density p else 0

def PressureEnv.getU (E : PressureEnv) (p : Pos) : ℚ :=
  if inBoundsU p then E.velU p else 0

def PressureEnv.getV (E : PressureEnv) (p : Pos) : ℚ :=
  if inBoundsV p then E.velV p else 0

def PressureEnv.getSolidVelX (E : PressureEnv) (p : Pos) : ℚ :=
  if inBounds p then E.solidVelX p else 0

def PressureEnv.getSolidVelY (E : PressureEnv) (p : Pos) : ℚ :=
  if inBounds p then E.solidVelY p else 0

def PressureEnv.getCount (E : PressureEnv) (p : Pos) : ℕ :=
  if inBounds p then E.count p else 0

/-- `select(count > 0, density >= INTERACT_THRESHOLD, airMix)`. -/
def PressureEnv.isFluid (E : PressureEnv) (p : Pos) : Prop :=
  if E.airMixing then INTERACT_THRESHOLD ≤ E.getDensity p else 0 < E.getCount p

instance (E : PressureEnv) (p : Pos) : Decidable (E.isFluid p) := by
  unfold PressureEnv.isFluid; infer_instance

/-- Guarded pressure read of the previous iterate. -/
def getP (pr : Pos → ℚ) (p : Pos) : ℚ :=
  if inBounds p then pr p else 0

/-- The per-cell divergence of the pressure shader: face velocities with solid
faces replaced by the solid's transient velocity, minus the density-drift
compensator (one-sided near solids). -/
def PressureEnv.divergence (E : PressureEnv) (p : Pos) : ℚ :=
  let matL := E.getMaterial (p + ((-1 : ℤ), (0 : ℤ)))
  let matR := E.getMaterial (p + ((1 : ℤ), (0 : ℤ)))
  let matU := E.getMaterial (p + ((0 : ℤ), (-1 : ℤ)))
  let matD := E.getMaterial (p + ((0 : ℤ), (1 : ℤ)))
  let uRight := if isSolidMat matR then E.getSolidVelX (p + ((1 : ℤ), (0 : ℤ)))
    else E.getU (p + ((1 : ℤ), (0 : ℤ)))
  let uLeft := if isSolidMat matL then E.getSolidVelX (p + ((-1 : ℤ), (0 : ℤ)))
    else E.getU p
  let vDown := if isSolidMat matD then E.getSolidVelY (p + ((0 : ℤ), (1 : ℤ)))
    else E.getV (p + ((0 : ℤ), (1 : ℤ)))
  let vUp := if isSolidMat matU then E.getSolidVelY (p + ((0 : ℤ), (-1 : ℤ)))
    else E.getV p
  let nearSolid := isSolidMat matL ∨ isSolidMat matR ∨ isSolidMat matU ∨ isSolidMat matD
  let drift := E.getDensity p - REST_DENSITY
  uRight - uLeft + vDown - vUp -
    DRIFT_SCALE * (if nearSolid then max 0 drift else drift)

/-- The diagonal coefficient: number of non-solid face neighbors. -/
def PressureEnv.sCoeff (E : PressureEnv) (p : Pos) : ℚ :=
  (if ¬isSolidMat (E.getMaterial (p + ((-1 : ℤ), (0 : ℤ)))) then (1 : ℚ) else 0) +
  (if ¬isSolidMat (E.getMaterial (p + ((1 : ℤ), (0 : ℤ)))) then (1 : ℚ) else 0) +
  (if ¬isSolidMat (E.getMaterial (p + ((0 : ℤ), (-1 : ℤ)))) then (1 : ℚ) else 0) +
  (if ¬isSolidMat (E.getMaterial (p + ((0 : ℤ), (1 : ℤ)))) then (1 : ℚ) else 0)

/-- A neighbor contributes its pressure only when it is fluid and not solid. -/
def PressureEnv.fluidGate (E : PressureEnv) (n : Pos) : Prop :=
  E.isFluid n ∧ ¬isSolidMat (E.getMaterial n)

instance (E : PressureEnv) (n : Pos) : Decidable (E.fluidGate n) := by
  unfold PressureEnv.fluidGate; infer_instance

/-- Sum of the gated neighbor pressures `pL + pR + pU + pD`. -/
def PressureEnv.gatedSum (E : PressureEnv) (pr : Pos → ℚ) (p : Pos) : ℚ :=
  (if E.fluidGate (p + ((-1 : ℤ), (0 : ℤ))) then getP pr (p + ((-1 : ℤ), (0 : ℤ))) else 0) +
  (if E.fluidGate (p + ((1 : ℤ), (0 : ℤ))) then getP pr (p + ((1 : ℤ), (0 : ℤ))) else 0) +
  (if E.fluidGate (p + ((0 : ℤ), (-1 : ℤ))) then getP pr (p + ((0 : ℤ), (-1 : ℤ))) else 0) +
  (if E.fluidGate (p + ((0 : ℤ), (1 : ℤ))) then getP pr (p + ((0 : ℤ), (1 : ℤ))) else 0)

/-- The pressure value one relaxation iteration writes at an in-bounds cell. -/
def pressureCell (E : PressureEnv) (pr : Pos → ℚ) (p : Pos) : ℚ :=
  if isSolidMat (E.getMaterial p) ∨ ¬E.isFluid p then 0
  else if E.sCoeff p = 0 then 0
  else (E.gatedSum pr p - E.divergence p) / E.sCoeff p

/-- One full relaxation dispatch over the grid. -/
def pressureStep (E : PressureEnv) (pr : Pos → ℚ) : Pos → ℚ :=
  fun p => if inBounds p then pressureCell E pr p else 0

/-- `n` relaxation iterations from an initial pressure field. -/
def pressureIter (E : PressureEnv) (p0 : Pos → ℚ) : ℕ → (Pos → ℚ)
  | 0 => p0
  | n + 1 => pressureStep E (pressureIter E p0 n)

/-- Residual of the relaxation's fixed-point equation at a cell. -/
def residAt (E : PressureEnv) (pr : Pos → ℚ) (p : Pos) : ℚ :=
  E.gatedSum pr p - E.divergence p - E.sCoeff p * getP pr p

/-- Two adjacent water-marked cells in an otherwise empty grid. -/
def presCxEnv : PressureEnv where
  mat := fun _ => EMPTY
  density := fun _ => 0
  velU := fun _ => 0
  velV := fun _ => 0
  solidVelX := fun _ => 0
  solidVelY := fun _ => 0
  count := fun p => if p = ((0 : ℤ), (1 : ℤ)) ∨ p = ((1 : ℤ), (1 : ℤ)) then 1 else 0
  airMixing := false

/-! ## Determinism (C6) -/

/-- Fold the automaton step over a sequence of per-substep parameter records
(each carrying its frame counter). -/
def runBoard (B : Board) (seq : List Params) : Board :=
  seq.foldl stepBoard B

/-- An all-empty grid snapshot. -/
def boardZero : Board where
  mat := fun _ => EMPTY
  sandMeta := fun _ => 0
  density := fun _ => 0
  velU := fun _ => 0

/-- The default uniform record (dt 1/60, gravity 9.8, fluidity 0.5, frame 0). -/
def paramsZero : Params where
  dt := 1/60
  gravity := 98/10
  viscosityScale := 0
  flipRatio := 9/10
  velocityDamping := 0
  sandFluidity := 1/2
  solidDamping := 0
  frame := 0

/-! ## Free-list allocator and the water spawn loop (C7) -/

/-- Particle storage plus the free-list allocator state.  The atomic
compare-exchange retry loop of `popFreeIndex` is sequentialized: each claim
decrements the counter and reads the corresponding free-list entry. -/
structure ParticleState where
  freeCount : ℕ
  freeList : ℕ → ℕ
  particlePos : ℕ → ℚ × ℚ
  particleVel : ℕ → ℚ × ℚ
  particleMass : ℕ → ℚ

/-- `popFreeIndex`: `-1` on an exhausted free list, else the top entry. -/
def popFreeIndex (s : ParticleState) : ℤ × ParticleState :=
  if s.freeCount = 0 then (-1, s)
  else ((s.freeList (s.freeCount - 1) : ℤ),
    { s with freeCount := s.freeCount - 1 })

/-- `slotOffset(slot)`: interior sub-cell offsets on the 3×3 lattice. -/
def slotOffset (slot : ℕ) : ℚ × ℚ :=
  ((((slot % PARTICLES_PER_CELL_SIDE : ℕ) : ℚ) + 1/2) / (PARTICLES_PER_CELL_SIDE : ℚ),
   (((slot / PARTICLES_PER_CELL_SIDE : ℕ) : ℚ) + 1/2) / (PARTICLES_PER_CELL_SIDE : ℚ))

/-- The WATER branch's spawn loop: `n` iterations remain, `i` is the loop
index; each iteration pops a free index and initializes that slot, and the
loop breaks as soon as the pop returns `-1`. -/
def spawnWaterLoop (base : ℚ × ℚ) (massVal : ℚ) :
    ℕ → ℕ → ParticleState → ParticleState
  | 0, _, s => s
  | n + 1, i, s =>
    let r := popFreeIndex s
    if r.1 < 0 then r.2
    else
      spawnWaterLoop base massVal n (i + 1)
        { r.2 with
          particlePos := Function.update r.2.particlePos r.1.toNat
            (base.1 + (slotOffset i).1, base.2 + (slotOffset i).2),
          particleVel := Function.update r.2.particleVel r.1.toNat (0, 0),
          particleMass := Function.update r.2.particleMass r.1.toNat massVal }

/-- The WATER spawn entry point: spawn up to `PARTICLES_PER_CELL − existing`. -/
def spawnWater (cell : Pos) (existing : ℕ) (s : ParticleState) : ParticleState :=
  spawnWaterLoop ((cell.1 : ℚ), (cell.2 : ℚ)) (1 / (PARTICLES_PER_CELL : ℚ))
    (PARTICLES_PER_CELL - min existing PARTICLES_PER_CELL) 0 s

/-- Live particles are the slots with positive mass. -/
def liveCount (mass : ℕ → ℚ) : ℕ :=
  ((Finset.range MAX_PARTICLES).filter (fun i => 0 < mass i)).card

/-- A concrete exhausted state for the witness. -/
def emptyParticleState : ParticleState where
  freeCount := 0
  freeList := fun _ => 0
  particlePos := fun _ => (0, 0)
  particleVel := fun _ => (0, 0)
  particleMass := fun _ => 0

/-! ## Weight normalization (C8), from `normalizeGridShader main` -/

/-- Horizontal face: `u = uSum / uWeight` only when the weight is positive,
else exactly zero. -/
def normalizeU (uSum : ℤ) (uWeight : ℕ) : ℚ :=
  if (0 : ℚ) < (uWeight : ℚ) then (uSum : ℚ) / (uWeight : ℚ) else 0

/-- Vertical face: same guarded division. -/
def normalizeV (vSum : ℤ) (vWeight : ℕ) : ℚ :=
  if (0 : ℚ) < (vWeight : ℚ) then (vSum : ℚ) / (vWeight : ℚ) else 0

/-- Cell density: fixed-point accumulator divided by the constant scale. -/
def normalizeDensity (densitySum : ℕ) : ℚ := (densitySum : ℚ) / 65536

/-! ## Particle eviction from solids (C9), from `evictParticlesShader main` -/

/-- The 3×3 scan order of the eviction loop (`dy` outer, `dx` inner). -/
def evictOffsets : List Pos :=
  [((-1 : ℤ), (-1 : ℤ)), ((0 : ℤ), (-1 : ℤ)), ((1 : ℤ), (-1 : ℤ)),
   ((-1 : ℤ), (0 : ℤ)), ((0 : ℤ), (0 : ℤ)), ((1 : ℤ), (0 : ℤ)),
   ((-1 : ℤ), (1 : ℤ)), ((0 : ℤ), (1 : ℤ)), ((1 : ℤ), (1 : ℤ))]

/-- The mutable loop state `(best, bestDist, found)`. -/
structure EvictAcc where
  best : Pos
  bestDist : ℚ
  found : Bool

/-- Squared neighbor distance `f32(dx*dx + dy*dy)`. -/
def offDist (δ : Pos) : ℚ := ((δ.1 * δ.1 + δ.2 * δ.2 : ℤ) : ℚ)

/-- One iteration of the eviction loop body. -/
def evictFold (B : Board) (cell : Pos) (acc : EvictAcc) (δ : Pos) : EvictAcc :=
  if ¬inBounds (cell + δ) then acc
  else if isSolidMat (getMaterial B (cell + δ)) then acc
  else if offDist δ < acc.bestDist then ⟨cell + δ, offDist δ, true⟩ else acc

/-- The full 3×3 scan with initial state `(cell, 999, false)`. -/
def evictScan (B : Board) (cell : Pos) : EvictAcc :=
  evictOffsets.foldl (evictFold B cell) ⟨cell, 999, false⟩

/-- The position/velocity a live particle gets from the eviction pass. -/
def evictParticle (B : Board) (pos vel : ℚ × ℚ) (mass : ℚ) :
    (ℚ × ℚ) × (ℚ × ℚ) :=
  if mass ≤ 0 then (pos, vel)
  else
    if ¬inBounds (⌊pos.1⌋, ⌊pos.2⌋) then (pos, vel)
    else if ¬isSolidMat (getMaterial B (⌊pos.1⌋, ⌊pos.2⌋)) then (pos, vel)
    else
      if (evictScan B (⌊pos.1⌋, ⌊pos.2⌋)).found then
        ((((evictScan B (⌊pos.1⌋, ⌊pos.2⌋)).best.1 : ℚ) + 1/2,
          ((evictScan B (⌊pos.1⌋, ⌊pos.2⌋)).best.2 : ℚ) + 1/2), (0, 0))
      else (pos, vel)

/-- A neighbor offset is usable when it lands in bounds on a non-solid cell. -/
def goodOff (B : Board) (cell δ : Pos) : Prop :=
  inBounds (cell + δ) ∧ ¬isSolidMat (getMaterial B (cell + δ))

instance (B : Board) (cell δ : Pos) : Decidable (goodOff B cell δ) := by
  unfold goodOff; infer_instance

/-- Loop-state soundness: once `found`, `best` is a good neighbor at the
recorded distance. -/
def accSound (B : Board) (cell : Pos) (acc : EvictAcc) : Prop :=
  acc.found = true →
    ∃ δ, goodOff B cell δ ∧ acc.best = cell + δ ∧ acc.bestDist = offDist δ

/-- Board for the eviction example: a single sand grain at (10,10). -/
def evictCxBoard : Board where
  mat := fun p => if p = ((10 : ℤ), (10 : ℤ)) then SAND else EMPTY
  sandMeta := fun _ => 0
  density := fun _ => 0
  velU := fun _ => 0

/-- Sign of a rational, for the direction opposite a solid's velocity. -/
def sgnQ (q : ℚ) : ℤ := if 0 < q then 1 else if q < 0 then -1 else 0

/-- Modelled from the spec: §4.4 states that eviction relocates a particle
"preferentially opposite the solid's own velocity direction if known, else
nearest by distance".  The eviction shader binds no solid-velocity texture, so
this preference exists only in the spec; this definition follows the spec's
words: when the solid's velocity is known (nonzero) and the cell one step
opposite its direction is a usable neighbor, that cell is chosen; otherwise
the nearest non-solid neighbor. -/
def specEvictDest (B : Board) (solidVel : ℚ × ℚ) (cell : Pos) : Option Pos :=
  if solidVel ≠ (0, 0) ∧
      goodOff B cell ((-(sgnQ solidVel.1) : ℤ), (-(sgnQ solidVel.2) : ℤ)) then
    some (cell + ((-(sgnQ solidVel.1) : ℤ), (-(sgnQ solidVel.2) : ℤ)))
  else if (evictScan B cell).found then some (evictScan B cell).best else none

/-! ## Particle positions stay inside the domain (C10) -/

/-- The clamp interval used by the integrate and separate passes. -/
def insideDomain (p : ℚ × ℚ) : Prop :=
  1/1000 ≤ p.1 ∧ p.1 ≤ (WIDTH : ℚ) - 1/1000 ∧
  1/1000 ≤ p.2 ∧ p.2 ≤ (HEIGHT : ℚ) - 1/1000

/-- `integrateParticlesShader main`: gravity, viscosity damping, advection,
the four sequential clamps (each zeroing the velocity component), and the
solid-destination revert. -/
def integrateParticle (B : Board) (P : Params) (pos vel : ℚ × ℚ) (mass : ℚ) :
    (ℚ × ℚ) × (ℚ × ℚ) :=
  if mass ≤ 0 then (pos, vel)
  else
    let vy0 := vel.2 + P.gravity * P.dt
    let damping := 1 / (1 + P.viscosityScale * P.dt)
    let vx1 := vel.1 * damping
    let vy1 := vy0 * damping
    let px1 := pos.1 + vx1 * P.dt
    let py1 := pos.2 + vy1 * P.dt
    let px2 := if px1 < 1/1000 then 1/1000 else px1
    let vx2 := if px1 < 1/1000 then 0 else vx1
    let px3 := if (WIDTH : ℚ) - 1/1000 < px2 then (WIDTH : ℚ) - 1/1000 else px2
    let vx3 := if (WIDTH : ℚ) - 1/1000 < px2 then 0 else vx2
    let py2 := if py1 < 1/1000 then 1/1000 else py1
    let vy2 := if py1 < 1/1000 then 0 else vy1
    let py3 := if (HEIGHT : ℚ) - 1/1000 < py2 then (HEIGHT : ℚ) - 1/1000 else py2
    let vy3 := if (HEIGHT : ℚ) - 1/1000 < py2 then 0 else vy2
    if inBounds ((⌊px3⌋ : ℤ), (⌊py3⌋ : ℤ)) ∧
        isSolidMat (getMaterial B ((⌊px3⌋ : ℤ), (⌊py3⌋ : ℤ))) then
      (pos, (0, 0))
    else ((px3, py3), (vx3, vy3))

/-- The position write of `separateParticlesShader main`: the pushed position
is clamped and stored only when its cell is in bounds and non-solid. -/
def separateWrite (B : Board) (pos pushed : ℚ × ℚ) : ℚ × ℚ :=
  if inBounds ((⌊clampQ pushed.1 (1/1000) ((WIDTH : ℚ) - 1/1000)⌋ : ℤ),
        (⌊clampQ pushed.2 (1/1000) ((HEIGHT : ℚ) - 1/1000)⌋ : ℤ)) ∧
      ¬isSolidMat (getMaterial B
        ((⌊clampQ pushed.1 (1/1000) ((WIDTH : ℚ) - 1/1000)⌋ : ℤ),
         (⌊clampQ pushed.2 (1/1000) ((HEIGHT : ℚ) - 1/1000)⌋ : ℤ))) then
    (clampQ pushed.1 (1/1000) ((WIDTH : ℚ) - 1/1000),
     clampQ pushed.2 (1/1000) ((HEIGHT : ℚ) - 1/1000))
  else pos

/-- A lone grain above empty ground, for the conflict-resolution witness. -/
def witBoard : Board where
  mat := fun p => if p = ((5 : ℤ), (5 : ℤ)) then SAND else EMPTY
  sandMeta := fun _ => 0
  density := fun _ => 0
  velU := fun _ => 0

lemma canFallLeft_eq (B : Board) (p : Pos) (h : canFallLeft B p = true) :
    getMaterial B (p + ((-1 : ℤ), (1 : ℤ))) = EMPTY ∧
    getMaterial B (p + ((-1 : ℤ), (0 : ℤ))) = EMPTY := by
  unfold canFallLeft at h
  dsimp only at h
  split_ifs at h <;> simp_all

lemma canFallRight_eq (B : Board) (p : Pos) (h : canFallRight B p = true) :
    getMaterial B (p + ((1 : ℤ), (1 : ℤ))) = EMPTY ∧
    getMaterial B (p + ((1 : ℤ), (0 : ℤ))) = EMPTY := by
  unfold canFallRight at h
  dsimp only at h
  split_ifs at h <;> simp_all

lemma canSlideLeft_eq (B : Board) (p : Pos) (h : canSlideLeft B p = true) :
    getMaterial B (p + ((-1 : ℤ), (0 : ℤ))) = EMPTY := by
  unfold canSlideLeft at h
  dsimp only at h
  split_ifs at h <;> simp_all

lemma canSlideRight_eq (B : Board) (p : Pos) (h : canSlideRight B p = true) :
    getMaterial B (p + ((1 : ℤ), (0 : ℤ))) = EMPTY := by
  unfold canSlideRight at h
  dsimp only at h
  split_ifs at h <;> simp_all

/-- Every movement the decision function returns is the zero move or one of the
five unit moves, and a nonzero move always targets an empty cell. -/
lemma getSandMovement_cases (B : Board) (P : Params) (p : Pos) (age rng : ℕ) :
    getSandMovement B P p age rng = ((0 : ℤ), (0 : ℤ)) ∨
    ((getSandMovement B P p age rng = ((0 : ℤ), (1 : ℤ)) ∨
      getSandMovement B P p age rng = ((-1 : ℤ), (1 : ℤ)) ∨
      getSandMovement B P p age rng = ((1 : ℤ), (1 : ℤ)) ∨
      getSandMovement B P p age rng = ((-1 : ℤ), (0 : ℤ)) ∨
      getSandMovement B P p age rng = ((1 : ℤ), (0 : ℤ))) ∧
      getMaterial B (p + getSandMovement B P p age rng) = EMPTY) := by
  unfold getSandMovement
  split_ifs with h1 h2 h3 h4 h5 h6 h7 h8 h9 h10 h11
  · exact Or.inl rfl
  · exact Or.inr ⟨Or.inl rfl, h2⟩
  · simp only [Bool.and_eq_true] at h3
    exact Or.inr ⟨Or.inr (Or.inl rfl), (canFallLeft_eq B p h3.1).1⟩
  · simp only [Bool.and_eq_true] at h3
    exact Or.inr ⟨Or.inr (Or.inr (Or.inl rfl)), (canFallRight_eq B p h3.2).1⟩
  · exact Or.inr ⟨Or.inr (Or.inl rfl), (canFallLeft_eq B p h5).1⟩
  · exact Or.inr ⟨Or.inr (Or.inr (Or.inl rfl)), (canFallRight_eq B p h6).1⟩
  · exact Or.inl rfl
  · simp only [Bool.and_eq_true] at h8
    exact Or.inr ⟨Or.inr (Or.inr (Or.inr (Or.inl rfl))), canSlideLeft_eq B p h8.1⟩
  · simp only [Bool.and_eq_true] at h8
    exact Or.inr ⟨Or.inr (Or.inr (Or.inr (Or.inr rfl))), canSlideRight_eq B p h8.2⟩
  · exact Or.inr ⟨Or.inr (Or.inr (Or.inr (Or.inl rfl))), canSlideLeft_eq B p h10⟩
  · exact Or.inr ⟨Or.inr (Or.inr (Or.inr (Or.inr rfl))), canSlideRight_eq B p h11⟩
  · exact Or.inl rfl

lemma packIncoming_ne_zero {m : ℕ} (hm : m < 16777216) : packIncoming m ≠ 0 := by
  unfold packIncoming U32MOD
  omega

lemma getSandMeta_lt (B : Board) (hmeta : ∀ q, B.sandMeta q < 16777216) (q : Pos) :
    getSandMeta B q < 16777216 := by
  unfold getSandMeta
  split
  · exact hmeta q
  · norm_num

lemma rawMove_eq_getMovement (B : Board) (P : Params) (p : Pos) :
    rawMove B P p = getMovement B P p (hash p P.frame) := rfl

/-- `checkIncoming` returns a nonzero token exactly when the offset neighbor is
sand whose own recomputed movement lands on the scanning cell. -/
lemma checkIncoming_ne_iff (B : Board) (P : Params)
    (hmeta : ∀ q, B.sandMeta q < 16777216) (d o : Pos) :
    checkIncoming B P d o ≠ 0 ↔
      (getMaterial B (d + o) = SAND ∧ (d + o) + rawMove B P (d + o) = d) := by
  unfold checkIncoming
  dsimp only
  rw [← rawMove_eq_getMovement]
  split_ifs with h1 h2
  · simp_all
  · push_neg at h1
    simpa [h1, h2] using packIncoming_ne_zero (getSandMeta_lt B hmeta (d + o))
  · simp_all

set_option maxHeartbeats 4000000 in
/-- Source-side yield check and destination-side acceptance scan agree: a
candidate mover is first in the destination's priority order exactly when the
yield scan sees no strictly earlier incoming mover. -/
lemma accepted_iff_noHigher (B : Board) (P : Params) (d o : Pos)
    (ho : o = ((0 : ℤ), (-1 : ℤ)) ∨ o = ((-1 : ℤ), (0 : ℤ)) ∨ o = ((1 : ℤ), (0 : ℤ)) ∨
      o = ((-1 : ℤ), (-1 : ℤ)) ∨ o = ((1 : ℤ), (-1 : ℤ)))
    (hc : checkIncoming B P d o ≠ 0) :
    (acceptedOffset B P d = some o ↔ hasHigherPriorityIncoming B P d o = false) := by
  rcases ho with rfl | rfl | rfl | rfl | rfl <;>
  · unfold acceptedOffset hasHigherPriorityIncoming
    revert hc
    generalize checkIncoming B P d ((0 : ℤ), (-1 : ℤ)) = cU
    generalize checkIncoming B P d ((-1 : ℤ), (0 : ℤ)) = cL
    generalize checkIncoming B P d ((1 : ℤ), (0 : ℤ)) = cR
    generalize checkIncoming B P d ((-1 : ℤ), (-1 : ℤ)) = cDL
    generalize checkIncoming B P d ((1 : ℤ), (-1 : ℤ)) = cDR
    intro hc
    split_ifs <;> simp_all

lemma rawMove_def (B : Board) (P : Params) (p : Pos) :
    rawMove B P p =
      getSandMovement B P p (getSandAge (getSandMeta B p)) (hash p P.frame) := rfl

lemma pos_add_neg (p m : Pos) : (p + m) + ((-m.1, -m.2) : Pos) = p := by
  cases p with
  | mk a b =>
    cases m with
    | mk c d => simp [Prod.ext_iff]

lemma stepMat_sand (B : Board) (P : Params) (p : Pos)
    (hsand : getMaterial B p = SAND) :
    stepMat B P p =
      (if finalMove B P p ≠ ((0 : ℤ), (0 : ℤ)) then EMPTY else SAND) := by
  unfold stepMat
  rw [hsand]
  norm_num [SAND, WALL, ROCK]

lemma finalMove_of_ne (B : Board) (P : Params) (p : Pos)
    (hmv : rawMove B P p ≠ ((0 : ℤ), (0 : ℤ))) :
    finalMove B P p =
      (if hasHigherPriorityIncoming B P (p + rawMove B P p)
          (-(rawMove B P p).1, -(rawMove B P p).2) = true then ((0 : ℤ), (0 : ℤ))
       else rawMove B P p) := by
  unfold finalMove
  dsimp only
  split_ifs <;> first | rfl | tauto

/-- A moving grain vacates exactly when its destination's acceptance scan
selects it. -/
lemma sand_gather_agreement (B : Board) (P : Params)
    (hmeta : ∀ q, B.sandMeta q < 16777216) (p : Pos)
    (hsand : getMaterial B p = SAND)
    (hmv : rawMove B P p ≠ ((0 : ℤ), (0 : ℤ))) :
    (stepMat B P p = EMPTY ↔
      acceptedOffset B P (p + rawMove B P p) =
        some (-(rawMove B P p).1, -(rawMove B P p).2)) := by
  have hcases := getSandMovement_cases B P p (getSandAge (getSandMeta B p)) (hash p P.frame)
  rw [← rawMove_def] at hcases
  have hfive : (-(rawMove B P p).1, -(rawMove B P p).2) = ((0 : ℤ), (-1 : ℤ)) ∨
      (-(rawMove B P p).1, -(rawMove B P p).2) = ((-1 : ℤ), (0 : ℤ)) ∨
      (-(rawMove B P p).1, -(rawMove B P p).2) = ((1 : ℤ), (0 : ℤ)) ∨
      (-(rawMove B P p).1, -(rawMove B P p).2) = ((-1 : ℤ), (-1 : ℤ)) ∨
      (-(rawMove B P p).1, -(rawMove B P p).2) = ((1 : ℤ), (-1 : ℤ)) := by
    rcases hcases with h | ⟨h, _⟩
    · exact absurd h hmv
    · rcases h with h | h | h | h | h <;> rw [h] <;> norm_num
  have hck : checkIncoming B P (p + rawMove B P p)
      (-(rawMove B P p).1, -(rawMove B P p).2) ≠ 0 := by
    rw [checkIncoming_ne_iff B P hmeta]
    rw [pos_add_neg]
    exact ⟨hsand, rfl⟩
  rw [stepMat_sand B P p hsand, finalMove_of_ne B P p hmv]
  rw [accepted_iff_noHigher B P _ _ hfive hck]
  have hmv0 : rawMove B P p ≠ (0 : Pos) := by simpa using hmv
  by_cases h : hasHigherPriorityIncoming B P (p + rawMove B P p)
      (-(rawMove B P p).1, -(rawMove B P p).2) = true
  · rw [if_pos h]
    simp [h, SAND, EMPTY]
  · have h' : hasHigherPriorityIncoming B P (p + rawMove B P p)
        (-(rawMove B P p).1, -(rawMove B P p).2) = false := by
      simpa using h
    rw [if_neg h]
    simp [hmv0, h']

/-- The gather accepts at most one source offset. -/
lemma accepted_unique (B : Board) (P : Params) (d o₁ o₂ : Pos)
    (h₁ : acceptedOffset B P d = some o₁) (h₂ : acceptedOffset B P d = some o₂) :
    o₁ = o₂ := by
  rw [h₁] at h₂
  exact Option.some.inj h₂

lemma mem_cells {p : Pos} : p ∈ cells ↔ inBounds p := by
  unfold cells inBounds
  cases p with
  | mk a b => simp [Finset.mem_product, Finset.mem_Ico, and_assoc]

lemma getMaterial_stepBoard (B : Board) (P : Params) (p : Pos) (hp : inBounds p) :
    getMaterial (stepBoard B P) p = stepMat B P p := by
  unfold getMaterial stepBoard
  simp [hp]

lemma getMaterial_sand_inBounds {B : Board} {p : Pos}
    (h : getMaterial B p = SAND) : inBounds p := by
  unfold getMaterial at h
  by_cases hp : inBounds p
  · exact hp
  · rw [if_neg hp] at h
    norm_num [WALL, SAND] at h

lemma getMaterial_empty_inBounds {B : Board} {p : Pos}
    (h : getMaterial B p = EMPTY) : inBounds p := by
  unfold getMaterial at h
  by_cases hp : inBounds p
  · exact hp
  · rw [if_neg hp] at h
    norm_num [WALL, EMPTY] at h

lemma finalMove_of_raw_zero (B : Board) (P : Params) (p : Pos)
    (h : rawMove B P p = ((0 : ℤ), (0 : ℤ))) :
    finalMove B P p = ((0 : ℤ), (0 : ℤ)) := by
  unfold finalMove
  simp [h]

lemma stepMat_wall_rock (B : Board) (P : Params) (p : Pos)
    (h : getMaterial B p = WALL ∨ getMaterial B p = ROCK) :
    stepMat B P p = getMaterial B p := by
  unfold stepMat
  rw [if_pos h]

lemma stepMat_empty (B : Board) (P : Params) (p : Pos)
    (h : getMaterial B p = EMPTY) :
    stepMat B P p =
      (match acceptedOffset B P p with
        | some _ => SAND
        | none => EMPTY) := by
  unfold stepMat
  rw [h]
  norm_num [EMPTY, WALL, ROCK, SAND]

lemma stepMat_other (B : Board) (P : Params) (p : Pos)
    (h1 : ¬(getMaterial B p = WALL ∨ getMaterial B p = ROCK))
    (h2 : getMaterial B p ≠ SAND) (h3 : getMaterial B p ≠ EMPTY) :
    stepMat B P p = getMaterial B p := by
  unfold stepMat
  rw [if_neg h1, if_neg h2, if_neg h3]

/-- What the per-cell step writes, characterized as sand-stays or empty-accepts. -/
lemma stepMat_eq_sand_iff (B : Board) (P : Params) (p : Pos) :
    stepMat B P p = SAND ↔
      ((getMaterial B p = SAND ∧ finalMove B P p = ((0 : ℤ), (0 : ℤ))) ∨
       (getMaterial B p = EMPTY ∧ (acceptedOffset B P p).isSome = true)) := by
  by_cases hsand : getMaterial B p = SAND
  · rw [stepMat_sand B P p hsand]
    by_cases hf : finalMove B P p = ((0 : ℤ), (0 : ℤ))
    · simp [hf, hsand, SAND, EMPTY]
    · simp [hf, hsand, SAND, EMPTY]
  · by_cases hemp : getMaterial B p = EMPTY
    · rw [stepMat_empty B P p hemp]
      rcases ha : acceptedOffset B P p with _ | o
      · simp [ha, hemp, hsand, SAND, EMPTY]
      · simp [ha, hemp, hsand]
    · by_cases hwr : getMaterial B p = WALL ∨ getMaterial B p = ROCK
      · rw [stepMat_wall_rock B P p hwr]
        simp [hsand, hemp]
      · rw [stepMat_other B P p hwr hsand hemp]
        simp [hsand, hemp]

set_option maxHeartbeats 2000000 in
/-- An accepted offset has a nonzero incoming token and is one of the five
scanned offsets. -/
lemma acceptedOffset_spec (B : Board) (P : Params) {d o : Pos}
    (h : acceptedOffset B P d = some o) :
    checkIncoming B P d o ≠ 0 ∧
      (o = ((0 : ℤ), (-1 : ℤ)) ∨ o = ((-1 : ℤ), (0 : ℤ)) ∨ o = ((1 : ℤ), (0 : ℤ)) ∨
        o = ((-1 : ℤ), (-1 : ℤ)) ∨ o = ((1 : ℤ), (-1 : ℤ))) := by
  unfold acceptedOffset at h
  split_ifs at h <;> simp_all

/-- A vacating source's raw movement is nonzero and survives the yield check. -/
lemma finalMove_ne_elim (B : Board) (P : Params) {s : Pos}
    (h : finalMove B P s ≠ ((0 : ℤ), (0 : ℤ))) :
    rawMove B P s ≠ ((0 : ℤ), (0 : ℤ)) ∧
      hasHigherPriorityIncoming B P (s + rawMove B P s)
        (-(rawMove B P s).1, -(rawMove B P s).2) = false ∧
      finalMove B P s = rawMove B P s := by
  have hraw : rawMove B P s ≠ ((0 : ℤ), (0 : ℤ)) := by
    intro h0
    exact h (finalMove_of_raw_zero B P s h0)
  have hfm := finalMove_of_ne B P s hraw
  by_cases hh : hasHigherPriorityIncoming B P (s + rawMove B P s)
      (-(rawMove B P s).1, -(rawMove B P s).2) = true
  · rw [if_pos hh] at hfm
    exact absurd hfm h
  · rw [if_neg hh] at hfm
    exact ⟨hraw, by simpa using hh, hfm⟩

/-- From an accepted offset, recover the source's sand-ness and movement. -/
lemma accepted_source (B : Board) (P : Params)
    (hmeta : ∀ q, B.sandMeta q < 16777216) {d o : Pos}
    (h : acceptedOffset B P d = some o) :
    getMaterial B (d + o) = SAND ∧ rawMove B P (d + o) = (-o.1, -o.2) := by
  obtain ⟨hck, hfive⟩ := acceptedOffset_spec B P h
  rw [checkIncoming_ne_iff B P hmeta] at hck
  obtain ⟨hs, hmv⟩ := hck
  refine ⟨hs, ?_⟩
  have := hmv
  cases d with
  | mk dx dy =>
    cases o with
    | mk ox oy =>
      rcases hr : rawMove B P ((dx, dy) + (ox, oy)) with ⟨mx, my⟩
      rw [hr] at this
      simp only [Prod.ext_iff, Prod.fst_add, Prod.snd_add] at this ⊢
      omega

/-- An accepting destination, seen from the source side: the unique accepted
source is sand, its movement returns to the destination, and it vacates. -/
lemma accepts_vacates (B : Board) (P : Params)
    (hmeta : ∀ q, B.sandMeta q < 16777216) {d o : Pos}
    (ho : acceptedOffset B P d = some o) :
    getMaterial B (d + o) = SAND ∧ rawMove B P (d + o) = (-o.1, -o.2) ∧
      finalMove B P (d + o) = rawMove B P (d + o) ∧
      finalMove B P (d + o) ≠ ((0 : ℤ), (0 : ℤ)) := by
  obtain ⟨hck, hfive⟩ := acceptedOffset_spec B P ho
  obtain ⟨hs, hr⟩ := accepted_source B P hmeta ho
  have hrne : rawMove B P (d + o) ≠ ((0 : ℤ), (0 : ℤ)) := by
    rw [hr]
    rcases hfive with h | h | h | h | h <;> subst h <;> norm_num
  have hcond : hasHigherPriorityIncoming B P ((d + o) + rawMove B P (d + o))
      (-(rawMove B P (d + o)).1, -(rawMove B P (d + o)).2) = false := by
    have h1 : (d + o) + rawMove B P (d + o) = d := by
      rw [hr]
      exact pos_add_neg d o
    have h2 : ((-(rawMove B P (d + o)).1, -(rawMove B P (d + o)).2) : Pos) = o := by
      rw [hr]
      simp
    rw [h1, h2]
    exact (accepted_iff_noHigher B P d o hfive hck).mp ho
  have hfm := finalMove_of_ne B P (d + o) hrne
  rw [hcond] at hfm
  norm_num at hfm
  exact ⟨hs, hr, hfm, by rw [hfm]; exact hrne⟩

/-- A vacating source, seen from the destination side: its destination is an
empty in-bounds cell that accepts exactly this source. -/
lemma vacates_accepted (B : Board) (P : Params)
    (hmeta : ∀ q, B.sandMeta q < 16777216) {s : Pos}
    (hsand : getMaterial B s = SAND)
    (hfm : finalMove B P s ≠ ((0 : ℤ), (0 : ℤ))) :
    getMaterial B (s + rawMove B P s) = EMPTY ∧
      acceptedOffset B P (s + rawMove B P s) =
        some (-(rawMove B P s).1, -(rawMove B P s).2) := by
  obtain ⟨hraw, hfalse, _⟩ := finalMove_ne_elim B P hfm
  have hcases := getSandMovement_cases B P s (getSandAge (getSandMeta B s)) (hash s P.frame)
  rw [← rawMove_def] at hcases
  rcases hcases with h | ⟨hmem, hempty⟩
  · exact absurd h hraw
  have hfive : ((-(rawMove B P s).1, -(rawMove B P s).2) : Pos) = ((0 : ℤ), (-1 : ℤ)) ∨
      ((-(rawMove B P s).1, -(rawMove B P s).2) : Pos) = ((-1 : ℤ), (0 : ℤ)) ∨
      ((-(rawMove B P s).1, -(rawMove B P s).2) : Pos) = ((1 : ℤ), (0 : ℤ)) ∨
      ((-(rawMove B P s).1, -(rawMove B P s).2) : Pos) = ((-1 : ℤ), (-1 : ℤ)) ∨
      ((-(rawMove B P s).1, -(rawMove B P s).2) : Pos) = ((1 : ℤ), (-1 : ℤ)) := by
    rcases hmem with h | h | h | h | h <;> rw [h] <;> norm_num
  have hck : checkIncoming B P (s + rawMove B P s)
      (-(rawMove B P s).1, -(rawMove B P s).2) ≠ 0 := by
    rw [checkIncoming_ne_iff B P hmeta, pos_add_neg]
    exact ⟨hsand, rfl⟩
  exact ⟨hempty, (accepted_iff_noHigher B P _ _ hfive hck).mpr hfalse⟩

set_option maxRecDepth 8000 in
set_option maxHeartbeats 2000000 in
/-- C2: one automaton step neither creates nor destroys sand: the number of
empty cells that accept a grain equals the number of sand cells that vacate. -/
theorem sand_mass_conservation (B : Board) (P : Params)
    (hmeta : ∀ q, B.sandMeta q < 16777216) :
    sandCount (stepBoard B P) = sandCount B := by
  classical
  unfold sandCount
  have hstep : cells.filter (fun p => getMaterial (stepBoard B P) p = SAND) =
      cells.filter (fun p => stepMat B P p = SAND) := by
    apply Finset.ext
    intro p
    simp only [Finset.mem_filter, and_congr_right_iff]
    intro hp
    rw [getMaterial_stepBoard B P p (mem_cells.mp hp)]
  rw [hstep]
  have h1 : cells.filter (fun p => stepMat B P p = SAND) =
      cells.filter (fun p =>
        (getMaterial B p = SAND ∧ finalMove B P p = ((0 : ℤ), (0 : ℤ))) ∨
        (getMaterial B p = EMPTY ∧ (acceptedOffset B P p).isSome = true)) := by
    apply Finset.ext
    intro p
    simp only [Finset.mem_filter, and_congr_right_iff]
    intro _
    exact stepMat_eq_sand_iff B P p
  have h2 : cells.filter (fun p => getMaterial B p = SAND) =
      cells.filter (fun p =>
        (getMaterial B p = SAND ∧ finalMove B P p = ((0 : ℤ), (0 : ℤ))) ∨
        (getMaterial B p = SAND ∧ finalMove B P p ≠ ((0 : ℤ), (0 : ℤ)))) := by
    apply Finset.ext
    intro p
    simp only [Finset.mem_filter, and_congr_right_iff]
    intro _
    tauto
  rw [h1, h2, Finset.filter_or, Finset.filter_or]
  rw [Finset.card_union_of_disjoint, Finset.card_union_of_disjoint]
  · congr 1
    refine Finset.card_nbij'
      (fun d => d + (acceptedOffset B P d).getD ((0 : ℤ), (0 : ℤ)))
      (fun s => s + rawMove B P s) ?_ ?_ ?_ ?_
    · intro d hd
      simp only [Finset.mem_filter] at hd ⊢
      obtain ⟨_, hemp, hsome⟩ := hd
      obtain ⟨o, ho⟩ := Option.isSome_iff_exists.mp hsome
      rw [ho]
      simp only [Option.getD_some]
      obtain ⟨hs, _, _, hfm⟩ := accepts_vacates B P hmeta ho
      exact ⟨mem_cells.mpr (getMaterial_sand_inBounds hs), hs, hfm⟩
    · intro s hs
      simp only [Finset.mem_filter] at hs ⊢
      obtain ⟨_, hsand, hfm⟩ := hs
      obtain ⟨hempty, hacc⟩ := vacates_accepted B P hmeta hsand hfm
      exact ⟨mem_cells.mpr (getMaterial_empty_inBounds hempty), hempty, by rw [hacc]; rfl⟩
    · intro d hd
      simp only [Finset.mem_filter] at hd
      obtain ⟨_, hemp, hsome⟩ := hd
      obtain ⟨o, ho⟩ := Option.isSome_iff_exists.mp hsome
      dsimp only
      rw [ho]
      simp only [Option.getD_some]
      obtain ⟨_, hr, _, _⟩ := accepts_vacates B P hmeta ho
      rw [hr]
      exact pos_add_neg d o
    · intro s hs
      simp only [Finset.mem_filter] at hs
      obtain ⟨_, hsand, hfm⟩ := hs
      obtain ⟨_, hacc⟩ := vacates_accepted B P hmeta hsand hfm
      dsimp only
      rw [hacc]
      simp only [Option.getD_some]
      exact pos_add_neg s (rawMove B P s)
  · rw [Finset.disjoint_left]
    intro p hp hq
    simp only [Finset.mem_filter] at hp hq
    exact hq.2.2 hp.2.2
  · rw [Finset.disjoint_left]
    intro p hp hq
    simp only [Finset.mem_filter] at hp hq
    rw [hp.2.1] at hq
    norm_num [SAND, EMPTY] at hq

theorem settle_band_cx :
    maxSettleChance (1/2) false 0 = 60 ∧ specMaxSettleChance (1/2) false 0 = 80 ∧
      maxSettleChance (1/2) false 0 ≠ specMaxSettleChance (1/2) false 0 := by
  refine ⟨?_, ?_, ?_⟩ <;>
    · norm_num [maxSettleChance, specMaxSettleChance, settleBase, specSettleBand,
        fluidityFactor, wetFactorQ, clampQ]
      decide

theorem settle_band_amended (f : ℚ) (wet : Bool) (age : ℕ) :
    maxSettleChance f wet age =
      (⌊min (settleBase age * fluidityFactor f wet) 95⌋).toNat ∧
    settleBase age =
      (if age ≤ 10 then 60 else if age ≤ 30 then 30 else if age ≤ 60 then 12 else 2) ∧
    maxSettleChance f wet age ≤ 95 ∧
    (0 ≤ f → f ≤ 1 → fluidityFactor f true * 2 = fluidityFactor f false) := by
  refine ⟨rfl, ?_, ?_, ?_⟩
  · unfold settleBase
    split_ifs <;> first | rfl | omega
  · unfold maxSettleChance
    have h1 : min (settleBase age * fluidityFactor f wet) 95 ≤ 95 := min_le_right _ _
    have h2 : (⌊min (settleBase age * fluidityFactor f wet) 95⌋ : ℤ) ≤ 95 := by
      calc ⌊min (settleBase age * fluidityFactor f wet) 95⌋ ≤ ⌊(95 : ℚ)⌋ := Int.floor_le_floor h1
        _ = 95 := by norm_num
    omega
  · intro h0 h1
    have e1 : fluidityFactor f true = f := by
      unfold fluidityFactor wetFactorQ clampQ
      norm_num
      rw [show f * 2 * (1/2) = f by ring]
      rw [max_eq_left h0, min_eq_left (by linarith : f ≤ 2)]
    have e2 : fluidityFactor f false = f * 2 := by
      unfold fluidityFactor wetFactorQ clampQ
      norm_num
      rw [max_eq_left (by linarith : (0 : ℚ) ≤ f * 2),
        min_eq_left (by linarith : f * 2 ≤ 2)]
    rw [e1, e2]

theorem settle_band_amended_witness :
    maxSettleChance (1/2) false 5 = 60 ∧
      fluidityFactor (1/2) true * 2 = fluidityFactor (1/2) false := by
  constructor
  · norm_num [maxSettleChance, settleBase, fluidityFactor, wetFactorQ, clampQ]
    decide
  · exact (settle_band_amended (1/2) false 5).2.2.2 (by norm_num) (by norm_num)

theorem spawn_legality_cx :
    spawnResultMat SAND WALL = SAND ∧ WALL ≠ EMPTY ∧ SAND ≠ WALL := by
  refine ⟨?_, ?_, ?_⟩ <;> decide

theorem spawn_legality_amended (spawn current : ℕ) :
    (spawn = 255 → spawnResultMat spawn current = EMPTY) ∧
    (spawn = WALL ∨ spawn = SAND ∨ spawn = ROCK → spawnResultMat spawn current = spawn) ∧
    (spawn ≠ 255 → ¬(spawn = WALL ∨ spawn = SAND ∨ spawn = ROCK) →
      spawnResultMat spawn current = current) ∧
    (spawn = WATER → spawnResultMat spawn current = current) ∧
    (waterSpawnAllowed spawn current → ¬isSolidMat current) := by
  refine ⟨?_, ?_, ?_, ?_, ?_⟩
  · intro h
    unfold spawnResultMat
    rw [if_pos h]
  · intro h
    unfold spawnResultMat
    rcases h with h | h | h <;> subst h <;> norm_num [WALL, SAND, ROCK, EMPTY]
  · intro h1 h2
    unfold spawnResultMat
    rw [if_neg h1, if_neg h2]
  · intro h
    subst h
    unfold spawnResultMat
    norm_num [WATER, WALL, SAND, ROCK]
  · intro h
    exact h.2

theorem spawn_legality_amended_witness :
    spawnResultMat 255 WALL = EMPTY ∧ spawnResultMat 0 SAND = SAND := by
  refine ⟨(spawn_legality_amended 255 WALL).1 rfl, ?_⟩
  exact (spawn_legality_amended 0 SAND).2.2.1 (by norm_num) (by norm_num [WALL, SAND, ROCK])

lemma presCx_s_a : presCxEnv.sCoeff ((0 : ℤ), (1 : ℤ)) = 3 := by
  norm_num [PressureEnv.sCoeff, PressureEnv.getMaterial, presCxEnv, inBounds,
    isSolidMat, EMPTY, WALL, SAND, ROCK, WIDTH, HEIGHT, -Prod.mk_one_one, -Prod.mk_zero_zero]

lemma presCx_s_b : presCxEnv.sCoeff ((1 : ℤ), (1 : ℤ)) = 4 := by
  norm_num [PressureEnv.sCoeff, PressureEnv.getMaterial, presCxEnv, inBounds,
    isSolidMat, EMPTY, WALL, SAND, ROCK, WIDTH, HEIGHT, -Prod.mk_one_one, -Prod.mk_zero_zero]

lemma presCx_div_a : presCxEnv.divergence ((0 : ℤ), (1 : ℤ)) = 0 := by
  norm_num [PressureEnv.divergence, PressureEnv.getMaterial, PressureEnv.getDensity,
    PressureEnv.getU, PressureEnv.getV, PressureEnv.getSolidVelX, PressureEnv.getSolidVelY,
    presCxEnv, inBounds, inBoundsU, inBoundsV, isSolidMat, EMPTY, WALL, SAND, ROCK,
    WIDTH, HEIGHT, U_WIDTH, V_HEIGHT, REST_DENSITY, DRIFT_SCALE, -Prod.mk_one_one, -Prod.mk_zero_zero]

lemma presCx_div_b : presCxEnv.divergence ((1 : ℤ), (1 : ℤ)) = 4/5 := by
  norm_num [PressureEnv.divergence, PressureEnv.getMaterial, PressureEnv.getDensity,
    PressureEnv.getU, PressureEnv.getV, PressureEnv.getSolidVelX, PressureEnv.getSolidVelY,
    presCxEnv, inBounds, inBoundsU, inBoundsV, isSolidMat, EMPTY, WALL, SAND, ROCK,
    WIDTH, HEIGHT, U_WIDTH, V_HEIGHT, REST_DENSITY, DRIFT_SCALE, -Prod.mk_one_one, -Prod.mk_zero_zero]

lemma presCx_fluid_a : presCxEnv.isFluid ((0 : ℤ), (1 : ℤ)) := by
  norm_num [PressureEnv.isFluid, PressureEnv.getCount, presCxEnv, inBounds,
    WIDTH, HEIGHT, -Prod.mk_one_one, -Prod.mk_zero_zero]

lemma presCx_fluid_b : presCxEnv.isFluid ((1 : ℤ), (1 : ℤ)) := by
  norm_num [PressureEnv.isFluid, PressureEnv.getCount, presCxEnv, inBounds,
    WIDTH, HEIGHT, -Prod.mk_one_one, -Prod.mk_zero_zero]

lemma presCx_mat (p : Pos) :
    presCxEnv.getMaterial p = (if inBounds p then EMPTY else WALL) := rfl

lemma presCx_count (p : Pos) :
    presCxEnv.getCount p =
      (if inBounds p then
        (if p = ((0 : ℤ), (1 : ℤ)) ∨ p = ((1 : ℤ), (1 : ℤ)) then 1 else 0) else 0) := rfl

lemma presCx_airMix : presCxEnv.airMixing = false := rfl

lemma presCx_gated_zero (p : Pos) :
    presCxEnv.gatedSum (fun _ => 0) p = 0 := by
  norm_num [PressureEnv.gatedSum, getP]

lemma presCx_p1_a :
    pressureStep presCxEnv (fun _ => 0) ((0 : ℤ), (1 : ℤ)) = 0 := by
  have hf := presCx_fluid_a
  norm_num [pressureStep, pressureCell, presCx_gated_zero, presCx_div_a, presCx_s_a,
    hf, inBounds, WIDTH, HEIGHT, presCx_mat, isSolidMat, EMPTY, WALL, SAND, ROCK, -Prod.mk_one_one, -Prod.mk_zero_zero]

lemma presCx_p1_b :
    pressureStep presCxEnv (fun _ => 0) ((1 : ℤ), (1 : ℤ)) = -(1/5) := by
  have hf := presCx_fluid_b
  norm_num [pressureStep, pressureCell, presCx_gated_zero, presCx_div_b, presCx_s_b,
    hf, inBounds, WIDTH, HEIGHT, presCx_mat, isSolidMat, EMPTY, WALL, SAND, ROCK, -Prod.mk_one_one, -Prod.mk_zero_zero]

lemma presCx_gated_p1_a :
    presCxEnv.gatedSum (pressureStep presCxEnv (fun _ => 0)) ((0 : ℤ), (1 : ℤ)) = -(1/5) := by
  norm_num [PressureEnv.gatedSum, getP, PressureEnv.fluidGate, PressureEnv.isFluid,
    presCx_count, presCx_mat, presCx_airMix, inBounds,
    isSolidMat, EMPTY, WALL, SAND, ROCK, WIDTH, HEIGHT, presCx_p1_b, -Prod.mk_one_one, -Prod.mk_zero_zero]

theorem pressure_residual_cx :
    presCxEnv.isFluid ((0 : ℤ), (1 : ℤ)) ∧
    residAt presCxEnv (pressureIter presCxEnv (fun _ => 0) 0) ((0 : ℤ), (1 : ℤ)) = 0 ∧
    residAt presCxEnv (pressureIter presCxEnv (fun _ => 0) 1) ((0 : ℤ), (1 : ℤ)) = -(1/5) ∧
    |residAt presCxEnv (pressureIter presCxEnv (fun _ => 0) 0) ((0 : ℤ), (1 : ℤ))| <
      |residAt presCxEnv (pressureIter presCxEnv (fun _ => 0) 1) ((0 : ℤ), (1 : ℤ))| := by
  have h0 : residAt presCxEnv (pressureIter presCxEnv (fun _ => 0) 0) ((0 : ℤ), (1 : ℤ)) = 0 := by
    norm_num [residAt, pressureIter, presCx_gated_zero, presCx_div_a, getP]
  have h1 : residAt presCxEnv (pressureIter presCxEnv (fun _ => 0) 1) ((0 : ℤ), (1 : ℤ)) = -(1/5) := by
    norm_num [residAt, pressureIter, presCx_gated_p1_a, presCx_div_a, presCx_s_a, getP,
      presCx_p1_a, inBounds, WIDTH, HEIGHT, -Prod.mk_one_one, -Prod.mk_zero_zero]
  refine ⟨presCx_fluid_a, h0, h1, ?_⟩
  rw [h0, h1]
  norm_num

/-- C5 amended: one relaxation iteration zeroes each fluid cell's own equation
residual with respect to the previous iterate's neighbor pressures. -/
theorem pressure_local_solve (E : PressureEnv) (pr : Pos → ℚ) (p : Pos)
    (hns : ¬isSolidMat (E.getMaterial p)) (hf : E.isFluid p)
    (hs : E.sCoeff p ≠ 0) :
    E.sCoeff p * pressureCell E pr p = E.gatedSum pr p - E.divergence p := by
  unfold pressureCell
  rw [if_neg (by tauto), if_neg hs]
  field_simp

theorem pressure_local_solve_witness :
    presCxEnv.sCoeff ((1 : ℤ), (1 : ℤ)) *
        pressureCell presCxEnv (fun _ => 0) ((1 : ℤ), (1 : ℤ)) =
      presCxEnv.gatedSum (fun _ => 0) ((1 : ℤ), (1 : ℤ)) -
        presCxEnv.divergence ((1 : ℤ), (1 : ℤ)) := by
  refine pressure_local_solve presCxEnv (fun _ => 0) ((1 : ℤ), (1 : ℤ)) ?_ presCx_fluid_b ?_
  · norm_num [presCx_mat, inBounds, isSolidMat,
      EMPTY, WALL, SAND, ROCK, WIDTH, HEIGHT]
  · rw [presCx_s_b]
    norm_num

/-- C6: the embedded step is a pure function of the snapshot, the parameters
and the frame counter, so equal initial grids fed equal input and frame
sequences stay bit-identical after any number of steps. -/
theorem run_deterministic (B₁ B₂ : Board) (seq₁ seq₂ : List Params)
    (hB : B₁ = B₂) (hseq : seq₁ = seq₂) :
    runBoard B₁ seq₁ = runBoard B₂ seq₂ := by
  subst hB
  subst hseq
  rfl

theorem run_deterministic_witness :
    runBoard boardZero [paramsZero] = runBoard boardZero [paramsZero] :=
  run_deterministic boardZero boardZero [paramsZero] [paramsZero] rfl rfl

lemma popFreeIndex_zero (s : ParticleState) (h : s.freeCount = 0) :
    popFreeIndex s = (-1, s) := by
  unfold popFreeIndex
  rw [if_pos h]

lemma spawnWaterLoop_zero (base : ℚ × ℚ) (massVal : ℚ) (n i : ℕ)
    (s : ParticleState) (h : s.freeCount = 0) :
    spawnWaterLoop base massVal n i s = s := by
  cases n with
  | zero => rfl
  | succ n =>
    unfold spawnWaterLoop
    rw [popFreeIndex_zero s h]
    norm_num

lemma spawnWaterLoop_writes (base : ℚ × ℚ) (massVal : ℚ) (n : ℕ) :
    ∀ (i : ℕ) (s : ParticleState) (j : ℕ),
      (spawnWaterLoop base massVal n i s).particleMass j ≠ s.particleMass j →
      ∃ k < s.freeCount, s.freeList k = j := by
  induction n with
  | zero =>
    intro i s j h
    exact absurd rfl h
  | succ n ih =>
    intro i s j h
    unfold spawnWaterLoop at h
    by_cases hc : s.freeCount = 0
    · rw [popFreeIndex_zero s hc] at h
      norm_num at h
    · have hpop : popFreeIndex s =
          ((s.freeList (s.freeCount - 1) : ℤ),
            { s with freeCount := s.freeCount - 1 }) := by
        unfold popFreeIndex
        rw [if_neg hc]
      rw [hpop] at h
      have hnn : ¬((s.freeList (s.freeCount - 1) : ℤ) < 0) := by
        push_neg
        exact Int.ofNat_nonneg _
      rw [if_neg hnn] at h
      set s' : ParticleState :=
        { freeCount := s.freeCount - 1,
          freeList := s.freeList,
          particlePos := Function.update s.particlePos
            (s.freeList (s.freeCount - 1) : ℤ).toNat
            (base.1 + (slotOffset i).1, base.2 + (slotOffset i).2),
          particleVel := Function.update s.particleVel
            (s.freeList (s.freeCount - 1) : ℤ).toNat (0, 0),
          particleMass := Function.update s.particleMass
            (s.freeList (s.freeCount - 1) : ℤ).toNat massVal } with hs'
      by_cases hj : (spawnWaterLoop base massVal n (i + 1) s').particleMass j =
          s'.particleMass j
      · rw [hj] at h
        have hupd : s'.particleMass j ≠ s.particleMass j := h
        rw [hs'] at hupd
        simp only [Function.update] at hupd
        split_ifs at hupd with heq
        · refine ⟨s.freeCount - 1, by omega, ?_⟩
          rw [heq]
          simp
        · exact absurd rfl hupd
      · obtain ⟨k, hk, hkj⟩ := ih (i + 1) s' j hj
        exact ⟨k, by simp [hs'] at hk; omega, hkj⟩

/-- C7: exhausting the free list truncates the spawn silently: the pop returns
`-1`, the loop writes nothing more, every write lands on a popped free-list
entry, and the live population cannot exceed the fixed capacity. -/
theorem freelist_exhaustion (base : ℚ × ℚ) (massVal : ℚ) (n i : ℕ)
    (s : ParticleState) :
    (s.freeCount = 0 →
      popFreeIndex s = (-1, s) ∧ spawnWaterLoop base massVal n i s = s) ∧
    (∀ j, (spawnWaterLoop base massVal n i s).particleMass j ≠ s.particleMass j →
      ∃ k < s.freeCount, s.freeList k = j) ∧
    liveCount (spawnWaterLoop base massVal n i s).particleMass ≤ MAX_PARTICLES := by
  refine ⟨fun h => ⟨popFreeIndex_zero s h, spawnWaterLoop_zero base massVal n i s h⟩,
    spawnWaterLoop_writes base massVal n i s, ?_⟩
  unfold liveCount
  calc ((Finset.range MAX_PARTICLES).filter _).card
      ≤ (Finset.range MAX_PARTICLES).card := Finset.card_filter_le _ _
    _ = MAX_PARTICLES := Finset.card_range _

theorem freelist_exhaustion_witness :
    popFreeIndex emptyParticleState = (-1, emptyParticleState) ∧
      spawnWaterLoop (0, 0) (1/9) 9 0 emptyParticleState = emptyParticleState :=
  (freelist_exhaustion (0, 0) (1/9) 9 0 emptyParticleState).1 rfl

/-- C8: the normalize pass is total, with the division guarded: zero weight
gives exactly zero velocity, and positive weight gives the exact quotient. -/
theorem normalize_guarded (uSum vSum : ℤ) (w : ℕ) :
    (w = 0 → normalizeU uSum w = 0 ∧ normalizeV vSum w = 0) ∧
    (0 < w → normalizeU uSum w * w = uSum ∧ normalizeV vSum w * w = vSum) := by
  constructor
  · intro h
    subst h
    unfold normalizeU normalizeV
    norm_num
  · intro h
    have hw : (0 : ℚ) < (w : ℚ) := by exact_mod_cast h
    unfold normalizeU normalizeV
    rw [if_pos hw, if_pos hw]
    constructor <;> field_simp

theorem normalize_guarded_witness :
    (normalizeU 7 0 = 0 ∧ normalizeV (-3) 0 = 0) ∧
      (normalizeU 7 2 * 2 = 7 ∧ normalizeV (-3) 2 * 2 = -3) := by
  constructor
  · exact (normalize_guarded 7 (-3) 0).1 rfl
  · have h := (normalize_guarded 7 (-3) 2).2 (by norm_num)
    exact_mod_cast h

lemma evictFold_sound (B : Board) (cell : Pos) (acc : EvictAcc) (δ : Pos)
    (h : accSound B cell acc) : accSound B cell (evictFold B cell acc δ) := by
  unfold evictFold
  split_ifs with h1 h2 h3
  all_goals try exact h
  intro _
  exact ⟨δ, ⟨by tauto, by tauto⟩, rfl, rfl⟩

lemma evictFoldl_sound (B : Board) (cell : Pos) (l : List Pos) (acc : EvictAcc)
    (h : accSound B cell acc) :
    accSound B cell (l.foldl (evictFold B cell) acc) := by
  induction l generalizing acc with
  | nil => exact h
  | cons hd tl ih => exact ih _ (evictFold_sound B cell acc hd h)

lemma evictFold_found_mono (B : Board) (cell : Pos) (acc : EvictAcc) (δ : Pos)
    (h : acc.found = true) : (evictFold B cell acc δ).found = true := by
  unfold evictFold
  split_ifs <;> simp [h]

lemma evictFoldl_found_mono (B : Board) (cell : Pos) (l : List Pos)
    (acc : EvictAcc) (h : acc.found = true) :
    (l.foldl (evictFold B cell) acc).found = true := by
  induction l generalizing acc with
  | nil => exact h
  | cons hd tl ih => exact ih _ (evictFold_found_mono B cell acc hd h)

lemma evictFold_cases (B : Board) (cell : Pos) (acc : EvictAcc) (δ : Pos) :
    evictFold B cell acc δ = acc ∨ (evictFold B cell acc δ).found = true := by
  unfold evictFold
  split_ifs <;> simp

lemma evictFoldl_found (B : Board) (cell : Pos) (l : List Pos) (acc : EvictAcc)
    (h : ∃ δ ∈ l, goodOff B cell δ ∧ offDist δ < acc.bestDist) :
    (l.foldl (evictFold B cell) acc).found = true := by
  induction l generalizing acc with
  | nil => simp at h
  | cons hd tl ih =>
    obtain ⟨δ, hmem, hgood, hlt⟩ := h
    rw [List.foldl_cons]
    rcases List.mem_cons.mp hmem with rfl | htl
    · have hstep : (evictFold B cell acc δ).found = true := by
        unfold evictFold
        rw [if_neg (not_not.mpr hgood.1), if_neg hgood.2, if_pos hlt]
      exact evictFoldl_found_mono B cell tl _ hstep
    · rcases evictFold_cases B cell acc hd with hc | hf
      · rw [hc]
        exact ih acc ⟨δ, htl, hgood, hlt⟩
      · exact evictFoldl_found_mono B cell tl _ hf

lemma evictFold_dist_le (B : Board) (cell : Pos) (acc : EvictAcc) (δ : Pos) :
    (evictFold B cell acc δ).bestDist ≤ acc.bestDist := by
  unfold evictFold
  split_ifs with h1 h2 h3
  all_goals first | exact le_refl _ | exact le_of_lt h3

lemma evictFold_dist_good (B : Board) (cell : Pos) (acc : EvictAcc) (δ : Pos)
    (hgood : goodOff B cell δ) :
    (evictFold B cell acc δ).bestDist ≤ offDist δ := by
  unfold evictFold
  rw [if_neg (not_not.mpr hgood.1), if_neg hgood.2]
  split_ifs with h3
  · exact le_refl _
  · push_neg at h3
    exact h3

lemma evictFoldl_dist_le (B : Board) (cell : Pos) (l : List Pos)
    (acc : EvictAcc) :
    (l.foldl (evictFold B cell) acc).bestDist ≤ acc.bestDist := by
  induction l generalizing acc with
  | nil => exact le_refl _
  | cons hd tl ih =>
    calc (List.foldl (evictFold B cell) (evictFold B cell acc hd) tl).bestDist
        ≤ (evictFold B cell acc hd).bestDist := ih _
      _ ≤ acc.bestDist := evictFold_dist_le B cell acc hd

lemma evictFoldl_min (B : Board) (cell : Pos) (l : List Pos) (acc : EvictAcc) :
    ∀ δ ∈ l, goodOff B cell δ →
      (l.foldl (evictFold B cell) acc).bestDist ≤ offDist δ := by
  induction l generalizing acc with
  | nil => intro δ hδ; simp at hδ
  | cons hd tl ih =>
    intro δ hδ hgood
    rcases List.mem_cons.mp hδ with rfl | htl
    · rw [List.foldl_cons]
      calc (List.foldl (evictFold B cell) (evictFold B cell acc δ) tl).bestDist
          ≤ (evictFold B cell acc δ).bestDist := evictFoldl_dist_le B cell tl _
        _ ≤ offDist δ := evictFold_dist_good B cell acc δ hgood
    · exact ih _ δ htl hgood

lemma evictFoldl_none (B : Board) (cell : Pos) (l : List Pos) (acc : EvictAcc)
    (h : ∀ δ ∈ l, ¬goodOff B cell δ) :
    l.foldl (evictFold B cell) acc = acc := by
  induction l generalizing acc with
  | nil => rfl
  | cons hd tl ih =>
    rw [List.foldl_cons]
    have hhd : evictFold B cell acc hd = acc := by
      have hbad := h hd (List.mem_cons_self hd tl)
      unfold goodOff at hbad
      push_neg at hbad
      unfold evictFold
      split_ifs with h1 h2 h3
      all_goals try rfl
      exact absurd (hbad (by tauto)) (by tauto)
    rw [hhd]
    exact ih acc (fun δ hδ => h δ (List.mem_cons_of_mem hd hδ))

lemma evictCx_mat (p : Pos) :
    getMaterial evictCxBoard p =
      (if inBounds p then (if p = ((10 : ℤ), (10 : ℤ)) then SAND else EMPTY)
       else WALL) := rfl

lemma evictCx_scan :
    evictScan evictCxBoard ((10 : ℤ), (10 : ℤ)) =
      ⟨((10 : ℤ), (9 : ℤ)), 1, true⟩ := by
  norm_num [evictScan, evictOffsets, evictFold, offDist, evictCx_mat, inBounds,
    isSolidMat, EMPTY, WALL, SAND, ROCK, WIDTH, HEIGHT,
    -Prod.mk_one_one, -Prod.mk_zero_zero]

theorem evict_velocity_pref_cx :
    (evictScan evictCxBoard ((10 : ℤ), (10 : ℤ))).found = true ∧
    (evictScan evictCxBoard ((10 : ℤ), (10 : ℤ))).best = ((10 : ℤ), (9 : ℤ)) ∧
    specEvictDest evictCxBoard ((2 : ℚ), (0 : ℚ)) ((10 : ℤ), (10 : ℤ)) =
      some ((9 : ℤ), (10 : ℤ)) ∧
    (some ((10 : ℤ), (9 : ℤ)) : Option Pos) ≠ some ((9 : ℤ), (10 : ℤ)) := by
  refine ⟨by rw [evictCx_scan], by rw [evictCx_scan], ?_, by norm_num⟩
  rw [specEvictDest, if_pos]
  · norm_num [sgnQ]
  · constructor
    · norm_num
    · norm_num [goodOff, sgnQ, evictCx_mat, inBounds, isSolidMat,
        EMPTY, WALL, SAND, ROCK, WIDTH, HEIGHT]

lemma offDist_lt_999 {δ : Pos} (h : δ ∈ evictOffsets) : offDist δ < 999 := by
  fin_cases h <;> norm_num [offDist]

lemma evictScan_sound (B : Board) (cell : Pos) :
    accSound B cell (evictScan B cell) := by
  unfold evictScan
  exact evictFoldl_sound B cell evictOffsets _
    (fun hcontra => absurd hcontra (by norm_num))

lemma evictScan_found (B : Board) (cell : Pos)
    (h : ∃ δ ∈ evictOffsets, goodOff B cell δ) :
    (evictScan B cell).found = true := by
  obtain ⟨δ, hmem, hgood⟩ := h
  unfold evictScan
  exact evictFoldl_found B cell evictOffsets _ ⟨δ, hmem, hgood, offDist_lt_999 hmem⟩

lemma evictScan_min (B : Board) (cell : Pos) {δ' : Pos}
    (hmem : δ' ∈ evictOffsets) (hgood : goodOff B cell δ') :
    (evictScan B cell).bestDist ≤ offDist δ' := by
  unfold evictScan
  exact evictFoldl_min B cell evictOffsets _ δ' hmem hgood

lemma evictScan_none (B : Board) (cell : Pos)
    (h : ∀ δ ∈ evictOffsets, ¬goodOff B cell δ) :
    evictScan B cell = ⟨cell, 999, false⟩ := by
  unfold evictScan
  exact evictFoldl_none B cell evictOffsets _ h

/-- C9 amended: a live particle inside a solid cell is relocated to the center
of a nearest (by squared distance) in-bounds non-solid 3×3 neighbor with its
velocity zeroed, whenever such a neighbor exists; with no usable neighbor the
particle is left untouched.  The solid's velocity plays no role. -/
theorem evict_amended (B : Board) (pos vel : ℚ × ℚ) (mass : ℚ)
    (hm : ¬(mass ≤ 0)) (hin : inBounds ((⌊pos.1⌋ : ℤ), (⌊pos.2⌋ : ℤ)))
    (hsolid : isSolidMat (getMaterial B ((⌊pos.1⌋ : ℤ), (⌊pos.2⌋ : ℤ)))) :
    ((∃ δ ∈ evictOffsets, goodOff B ((⌊pos.1⌋ : ℤ), (⌊pos.2⌋ : ℤ)) δ) →
      (evictScan B ((⌊pos.1⌋ : ℤ), (⌊pos.2⌋ : ℤ))).found = true ∧
      (∃ δ, goodOff B ((⌊pos.1⌋ : ℤ), (⌊pos.2⌋ : ℤ)) δ ∧
        (evictScan B ((⌊pos.1⌋ : ℤ), (⌊pos.2⌋ : ℤ))).best =
          ((⌊pos.1⌋ : ℤ), (⌊pos.2⌋ : ℤ)) + δ ∧
        (∀ δ' ∈ evictOffsets, goodOff B ((⌊pos.1⌋ : ℤ), (⌊pos.2⌋ : ℤ)) δ' →
          offDist δ ≤ offDist δ')) ∧
      evictParticle B pos vel mass =
        ((((evictScan B ((⌊pos.1⌋ : ℤ), (⌊pos.2⌋ : ℤ))).best.1 : ℚ) + 1/2,
          ((evictScan B ((⌊pos.1⌋ : ℤ), (⌊pos.2⌋ : ℤ))).best.2 : ℚ) + 1/2),
         (0, 0))) ∧
    ((∀ δ ∈ evictOffsets, ¬goodOff B ((⌊pos.1⌋ : ℤ), (⌊pos.2⌋ : ℤ)) δ) →
      evictParticle B pos vel mass = (pos, vel)) := by
  constructor
  · intro hex
    have hfound := evictScan_found B ((⌊pos.1⌋ : ℤ), (⌊pos.2⌋ : ℤ)) hex
    obtain ⟨δ, hgood, hbest, hdist⟩ :=
      evictScan_sound B ((⌊pos.1⌋ : ℤ), (⌊pos.2⌋ : ℤ)) hfound
    refine ⟨hfound, ⟨δ, hgood, hbest, ?_⟩, ?_⟩
    · intro δ' hmem' hgood'
      have hmin := evictScan_min B ((⌊pos.1⌋ : ℤ), (⌊pos.2⌋ : ℤ)) hmem' hgood'
      rw [hdist] at hmin
      exact hmin
    · unfold evictParticle
      rw [if_neg hm, if_neg (not_not.mpr hin), if_neg (not_not.mpr hsolid),
        if_pos hfound]
  · intro hnone
    have hscan := evictScan_none B ((⌊pos.1⌋ : ℤ), (⌊pos.2⌋ : ℤ)) hnone
    unfold evictParticle
    rw [if_neg hm, if_neg (not_not.mpr hin), if_neg (not_not.mpr hsolid), hscan]
    norm_num

lemma floor_half_21 : (⌊(21/2 : ℚ)⌋ : ℤ) = 10 := by
  rw [Int.floor_eq_iff] <;> norm_num

theorem evict_amended_witness :
    evictParticle evictCxBoard ((21/2 : ℚ), (21/2 : ℚ)) ((0 : ℚ), (0 : ℚ)) 1 =
      (((21/2 : ℚ), (19/2 : ℚ)), ((0 : ℚ), (0 : ℚ))) := by
  have h := evict_amended evictCxBoard ((21/2 : ℚ), (21/2 : ℚ)) ((0 : ℚ), (0 : ℚ)) 1
    (by norm_num)
    (by rw [floor_half_21]; norm_num [inBounds, WIDTH, HEIGHT])
    (by rw [floor_half_21]; norm_num [evictCx_mat, inBounds, isSolidMat,
      SAND, WALL, ROCK, WIDTH, HEIGHT])
  have hup : goodOff evictCxBoard ((10 : ℤ), (10 : ℤ)) ((0 : ℤ), (-1 : ℤ)) := by
    norm_num [goodOff, evictCx_mat, inBounds, isSolidMat,
      EMPTY, WALL, SAND, ROCK, WIDTH, HEIGHT]
  rw [floor_half_21] at h
  obtain ⟨_, _, heq⟩ := h.1 ⟨((0 : ℤ), (-1 : ℤ)), by norm_num [evictOffsets], hup⟩
  rw [heq, evictCx_scan]
  norm_num

lemma clamp_seq_bounds (x lo hi : ℚ) (hlohi : lo ≤ hi) :
    lo ≤ (if hi < (if x < lo then lo else x) then hi else (if x < lo then lo else x)) ∧
    (if hi < (if x < lo then lo else x) then hi else (if x < lo then lo else x)) ≤ hi := by
  split_ifs with h1 h2 h3 <;> constructor <;> linarith

lemma clampQ_bounds (x lo hi : ℚ) (hlohi : lo ≤ hi) :
    lo ≤ clampQ x lo hi ∧ clampQ x lo hi ≤ hi := by
  unfold clampQ
  constructor
  · exact le_min (le_max_right x lo) hlohi
  · exact min_le_right _ _

lemma insideDomain_mk {x y : ℚ} (h1 : 1/1000 ≤ x) (h2 : x ≤ (WIDTH : ℚ) - 1/1000)
    (h3 : 1/1000 ≤ y) (h4 : y ≤ (HEIGHT : ℚ) - 1/1000) : insideDomain (x, y) := by
  unfold insideDomain
  exact ⟨h1, h2, h3, h4⟩

lemma insideDomain_ite (c : Prop) [Decidable c] (a b : ℚ × ℚ)
    (ha : insideDomain a) (hb : insideDomain b) :
    insideDomain (if c then a else b) := by
  split_ifs <;> assumption

/-- C10: every pass that writes a particle position keeps it strictly inside
the grid: integrate clamps or reverts, separate clamps, spawning places at
interior offsets of an in-bounds cell, eviction places at an in-bounds cell
center, and an inside position floors to an in-bounds cell index. -/
theorem particle_positions_inside (B : Board) (P : Params) :
    (∀ pos vel mass, insideDomain pos →
      insideDomain (integrateParticle B P pos vel mass).1) ∧
    (∀ pos pushed, insideDomain pos → insideDomain (separateWrite B pos pushed)) ∧
    (∀ cell slot, inBounds cell → slot < PARTICLES_PER_CELL →
      insideDomain ((cell.1 : ℚ) + (slotOffset slot).1,
        (cell.2 : ℚ) + (slotOffset slot).2)) ∧
    (∀ pos vel mass, insideDomain pos →
      insideDomain (evictParticle B pos vel mass).1) ∧
    (∀ p : ℚ × ℚ, insideDomain p → inBounds ((⌊p.1⌋ : ℤ), (⌊p.2⌋ : ℤ))) := by
  have hW : (1/1000 : ℚ) ≤ (WIDTH : ℚ) - 1/1000 := by norm_num [WIDTH]
  have hH : (1/1000 : ℚ) ≤ (HEIGHT : ℚ) - 1/1000 := by norm_num [HEIGHT]
  refine ⟨?_, ?_, ?_, ?_, ?_⟩
  · intro pos vel mass hpos
    rw [integrateParticle]
    split_ifs with h1
    · exact hpos
    dsimp only
    rw [apply_ite Prod.fst]
    dsimp only
    apply insideDomain_ite _ _ _ hpos
    obtain ⟨hx1, hx2⟩ := clamp_seq_bounds (pos.1 + vel.1 *
      (1 / (1 + P.viscosityScale * P.dt)) * P.dt) (1/1000) ((WIDTH : ℚ) - 1/1000) hW
    obtain ⟨hy1, hy2⟩ := clamp_seq_bounds (pos.2 + (vel.2 + P.gravity * P.dt) *
      (1 / (1 + P.viscosityScale * P.dt)) * P.dt) (1/1000) ((HEIGHT : ℚ) - 1/1000) hH
    exact insideDomain_mk hx1 hx2 hy1 hy2
  · intro pos pushed hpos
    rw [separateWrite]
    apply insideDomain_ite _ _ _ _ hpos
    obtain ⟨hx1, hx2⟩ := clampQ_bounds pushed.1 (1/1000) ((WIDTH : ℚ) - 1/1000) hW
    obtain ⟨hy1, hy2⟩ := clampQ_bounds pushed.2 (1/1000) ((HEIGHT : ℚ) - 1/1000) hH
    exact insideDomain_mk hx1 hx2 hy1 hy2
  · intro cell slot hcell hslot
    obtain ⟨hx0, hx1, hy0, hy1⟩ := hcell
    unfold PARTICLES_PER_CELL at hslot
    unfold insideDomain slotOffset PARTICLES_PER_CELL_SIDE WIDTH HEIGHT
    unfold WIDTH at hx1
    unfold HEIGHT at hy1
    have hmod : slot % 3 ≤ 2 := by omega
    have hdiv : slot / 3 ≤ 2 := by omega
    have hmodQ : ((slot % 3 : ℕ) : ℚ) ≤ 2 := by exact_mod_cast hmod
    have hdivQ : ((slot / 3 : ℕ) : ℚ) ≤ 2 := by exact_mod_cast hdiv
    have hmodQ0 : (0 : ℚ) ≤ ((slot % 3 : ℕ) : ℚ) := by positivity
    have hdivQ0 : (0 : ℚ) ≤ ((slot / 3 : ℕ) : ℚ) := by positivity
    have hx0Q : (0 : ℚ) ≤ (cell.1 : ℚ) := by exact_mod_cast hx0
    have hx1Q : (cell.1 : ℚ) ≤ 255 := by
      have : cell.1 ≤ 255 := by omega
      exact_mod_cast this
    have hy0Q : (0 : ℚ) ≤ (cell.2 : ℚ) := by exact_mod_cast hy0
    have hy1Q : (cell.2 : ℚ) ≤ 255 := by
      have : cell.2 ≤ 255 := by omega
      exact_mod_cast this
    refine ⟨?_, ?_, ?_, ?_⟩ <;> simp only [Prod.fst, Prod.snd] <;> nlinarith
  · intro pos vel mass hpos
    rw [evictParticle]
    split_ifs with h1 h2 h3 h4
    all_goals try exact hpos
    dsimp only
    obtain ⟨δ, hgood, hbest, _⟩ :=
      evictScan_sound B ((⌊pos.1⌋ : ℤ), (⌊pos.2⌋ : ℤ)) h4
    obtain ⟨hbin, _⟩ := hgood
    rw [hbest]
    obtain ⟨hbx0, hbx1, hby0, hby1⟩ := hbin
    unfold WIDTH at hbx1
    unfold HEIGHT at hby1
    have hq1 : (0 : ℚ) ≤ ((((⌊pos.1⌋ : ℤ), (⌊pos.2⌋ : ℤ)) + δ).1 : ℚ) := by
      exact_mod_cast hbx0
    have hq2 : ((((⌊pos.1⌋ : ℤ), (⌊pos.2⌋ : ℤ)) + δ).1 : ℚ) ≤ 255 := by
      have hle : (((⌊pos.1⌋ : ℤ), (⌊pos.2⌋ : ℤ)) + δ).1 ≤ 255 := by omega
      exact_mod_cast hle
    have hq3 : (0 : ℚ) ≤ ((((⌊pos.1⌋ : ℤ), (⌊pos.2⌋ : ℤ)) + δ).2 : ℚ) := by
      exact_mod_cast hby0
    have hq4 : ((((⌊pos.1⌋ : ℤ), (⌊pos.2⌋ : ℤ)) + δ).2 : ℚ) ≤ 255 := by
      have hle : (((⌊pos.1⌋ : ℤ), (⌊pos.2⌋ : ℤ)) + δ).2 ≤ 255 := by omega
      exact_mod_cast hle
    simp only [Prod.fst_add, Prod.snd_add] at hq1 hq2 hq3 hq4
    push_cast at hq1 hq2 hq3 hq4
    apply insideDomain_mk <;> norm_num [WIDTH, HEIGHT] <;> linarith
  · intro p hp
    obtain ⟨hx0, hx1, hy0, hy1⟩ := hp
    unfold WIDTH at hx1
    unfold HEIGHT at hy1
    refine ⟨?_, ?_, ?_, ?_⟩
    · exact Int.le_floor.mpr (by push_cast; linarith)
    · rw [show WIDTH = 256 from rfl]
      exact Int.floor_lt.mpr (by push_cast; linarith)
    · exact Int.le_floor.mpr (by push_cast; linarith)
    · rw [show HEIGHT = 256 from rfl]
      exact Int.floor_lt.mpr (by push_cast; linarith)

theorem particle_positions_inside_witness :
    inBounds ((⌊((1 : ℚ)/2)⌋ : ℤ), (⌊((1 : ℚ)/2)⌋ : ℤ)) ∧
      insideDomain ((0 : ℚ) + (slotOffset 0).1, (0 : ℚ) + (slotOffset 0).2) := by
  constructor
  · exact (particle_positions_inside boardZero paramsZero).2.2.2.2 (1/2, 1/2)
      (by norm_num [insideDomain, WIDTH, HEIGHT])
  · have h := (particle_positions_inside boardZero paramsZero).2.2.1
      ((0 : ℤ), (0 : ℤ)) 0 (by norm_num [inBounds, WIDTH, HEIGHT])
      (by norm_num [PARTICLES_PER_CELL])
    simpa using h

lemma witBoard_mat (p : Pos) :
    getMaterial witBoard p =
      (if inBounds p then (if p = ((5 : ℤ), (5 : ℤ)) then SAND else EMPTY)
       else WALL) := rfl

lemma witBoard_wet (p : Pos) : wetAt witBoard p = false := by
  have hd : getDensity witBoard p = 0 := by
    unfold getDensity witBoard
    split_ifs <;> rfl
  simp only [wetAt, hd, decide_eq_false_iff_not, INTERACT_THRESHOLD]
  norm_num

lemma witBoard_raw :
    rawMove witBoard paramsZero ((5 : ℤ), (5 : ℤ)) = ((0 : ℤ), (1 : ℤ)) := by
  rw [rawMove_def]
  rw [getSandMovement]
  rw [if_neg (by simp [witBoard_wet])]
  rw [if_pos (by norm_num [witBoard_mat, inBounds, WIDTH, HEIGHT, EMPTY, SAND,
    -Prod.mk_one_one, -Prod.mk_zero_zero])]

/-- C1: for every board and every empty destination, the gather accepts at
most one incoming mover, and a moving grain empties its own cell exactly when
the destination's scan accepts it — the two recomputations always agree. -/
theorem sand_no_double_write (B : Board) (P : Params)
    (hmeta : ∀ q, B.sandMeta q < 16777216) (p : Pos)
    (hsand : getMaterial B p = SAND)
    (hmv : rawMove B P p ≠ ((0 : ℤ), (0 : ℤ))) :
    (stepMat B P p = EMPTY ↔
      acceptedOffset B P (p + rawMove B P p) =
        some (-(rawMove B P p).1, -(rawMove B P p).2)) ∧
    (∀ d o₁ o₂, acceptedOffset B P d = some o₁ →
      acceptedOffset B P d = some o₂ → o₁ = o₂) :=
  ⟨sand_gather_agreement B P hmeta p hsand hmv,
   fun d o₁ o₂ h₁ h₂ => accepted_unique B P d o₁ o₂ h₁ h₂⟩

theorem sand_no_double_write_witness :
    (stepMat witBoard paramsZero ((5 : ℤ), (5 : ℤ)) = EMPTY ↔
      acceptedOffset witBoard paramsZero
          (((5 : ℤ), (5 : ℤ)) + rawMove witBoard paramsZero ((5 : ℤ), (5 : ℤ))) =
        some (-(rawMove witBoard paramsZero ((5 : ℤ), (5 : ℤ))).1,
          -(rawMove witBoard paramsZero ((5 : ℤ), (5 : ℤ))).2)) ∧
    (∀ d o₁ o₂, acceptedOffset witBoard paramsZero d = some o₁ →
      acceptedOffset witBoard paramsZero d = some o₂ → o₁ = o₂) :=
  sand_no_double_write witBoard paramsZero
    (fun q => by norm_num [witBoard])
    ((5 : ℤ), (5 : ℤ))
    (by norm_num [witBoard_mat, inBounds, WIDTH, HEIGHT])
    (by rw [witBoard_raw]; norm_num)

theorem sand_mass_conservation_witness :
    sandCount (stepBoard boardZero paramsZero) = sandCount boardZero :=
  sand_mass_conservation boardZero paramsZero (fun q => by norm_num [boardZero])

end SandSim
